import Mathlib

/-!
Shallow embedding of src/examples/text-editor/text-editor.ino
(Cardputer keyboard reference, text-editor validation sketch).

Arduino String values are modelled as List Char; the fixed C arrays
String lines[MAX_LINES] and UndoEntry undoStack[UNDO_STACK_SIZE] are
modelled as Lean lists of fixed length (100 resp. 20), mutated with
List.set; the C for-loops that shift or copy array cells are modelled
by structurally recursive helpers that perform the same sequence of
cell writes.  Display-only state (canvas, needsRedraw, notification
timestamps driven by millis()) is outside the model; the notification
string itself is kept because several contracts mention it.
-/

-- CONFIGURATION (text-editor.ino lines 50-56)
def MAX_LINES : Nat := 100
def VISIBLE_LINES : Nat := 13
def CHARS_PER_LINE : Nat := 38
def TAB_WIDTH : Nat := 4
def UNDO_STACK_SIZE : Nat := 20

abbrev Line := List Char

/-- struct EditorState (lines 61-73); scroll fields kept, canvas/timing dropped. -/
structure EditorState where
  lines : List Line
  lineCount : Nat
  cursorLine : Nat
  cursorCol : Nat
  scrollY : Nat
  scrollX : Nat
  capsLock : Bool
  selectAll : Bool
  showLineNumbers : Bool
  notification : String
deriving DecidableEq

/-- struct UndoEntry (lines 75-81). -/
structure UndoEntry where
  lines : List Line
  lineCount : Nat
  cursorLine : Nat
  cursorCol : Nat
  valid : Bool
deriving DecidableEq

instance : Inhabited UndoEntry := ⟨⟨[], 0, 0, 0, false⟩⟩

/-- The globals of the sketch (lines 87-92): editor state, undo ring and
the previous-frame modifier flags. -/
structure Machine where
  ed : EditorState
  undoStack : List UndoEntry
  undoHead : Nat
  undoCount : Nat
  prevFn : Bool
  prevShift : Bool
deriving DecidableEq

/-- Helper for the C loop pattern: for (i = 0; i < n; i++) dst[i] = src[i]. -/
def copyLines (dst src : List Line) : Nat → List Line
  | 0 => dst
  | n + 1 => (copyLines dst src n).set n (src.getD n [])

/-- Helper for: for (; 0 < fuel; i++) ls[i] = ls[i+1] (ascending shift). -/
def shiftUpAux : Nat → Nat → List Line → List Line
  | 0, _, ls => ls
  | fuel + 1, i, ls => shiftUpAux fuel (i + 1) (ls.set i (ls.getD (i + 1) []))

/-- Helper for the C loop: for (i = lo; i < hi; i++) ls[i] = ls[i+1]. -/
def shiftUp (ls : List Line) (lo hi : Nat) : List Line :=
  shiftUpAux (hi - lo) lo ls

/-- Helper for: for (; 0 < fuel; i--) ls[i] = ls[i-1] (descending shift). -/
def shiftDownAux : Nat → Nat → List Line → List Line
  | 0, _, ls => ls
  | fuel + 1, i, ls => shiftDownAux fuel (i - 1) (ls.set i (ls.getD (i - 1) []))

/-- Helper for the C loop: for (i = hi; i > lo; i--) ls[i] = ls[i-1]. -/
def shiftDown (ls : List Line) (hi lo : Nat) : List Line :=
  shiftDownAux (hi - lo) hi ls

-- UNDO SYSTEM (lines 98-129)

/-- void pushUndo() (lines 98-109).  Only the first ed.lineCount cells of the
slot are overwritten, exactly as the C copy loop does. -/
def pushUndo (m : Machine) : Machine :=
  let u := m.undoStack.getD m.undoHead default
  let u' : UndoEntry :=
    { lines := copyLines u.lines m.ed.lines m.ed.lineCount
      lineCount := m.ed.lineCount
      cursorLine := m.ed.cursorLine
      cursorCol := m.ed.cursorCol
      valid := true }
  { m with
    undoStack := m.undoStack.set m.undoHead u'
    undoHead := (m.undoHead + 1) % UNDO_STACK_SIZE
    undoCount := if m.undoCount < UNDO_STACK_SIZE then m.undoCount + 1 else m.undoCount }

/-- void popUndo() (lines 111-129).  undoHead ranges over [0,20), so the C
expression (undoHead - 1 + 20) % 20 equals (undoHead + 19) % 20. -/
def popUndo (m : Machine) : Machine :=
  if m.undoCount = 0 then
    { m with ed := { m.ed with notification := "Nothing to undo" } }
  else
    let h' := (m.undoHead + (UNDO_STACK_SIZE - 1)) % UNDO_STACK_SIZE
    let u := m.undoStack.getD h' default
    if u.valid = false then
      { m with undoHead := h', undoCount := m.undoCount - 1 }
    else
      { m with
        undoHead := h'
        undoCount := m.undoCount - 1
        ed := { m.ed with
                lineCount := u.lineCount
                cursorLine := u.cursorLine
                cursorCol := u.cursorCol
                lines := copyLines m.ed.lines u.lines u.lineCount
                notification := "Undo" } }

-- CURSOR MOVEMENT (lines 134-178)

/-- void cursorLeft() (lines 134-141). -/
def cursorLeft (m : Machine) : Machine :=
  if 0 < m.ed.cursorCol then
    { m with ed := { m.ed with cursorCol := m.ed.cursorCol - 1 } }
  else if 0 < m.ed.cursorLine then
    { m with ed := { m.ed with
        cursorLine := m.ed.cursorLine - 1
        cursorCol := (m.ed.lines.getD (m.ed.cursorLine - 1) []).length } }
  else m

/-- void cursorRight() (lines 143-150). -/
def cursorRight (m : Machine) : Machine :=
  if m.ed.cursorCol < (m.ed.lines.getD m.ed.cursorLine []).length then
    { m with ed := { m.ed with cursorCol := m.ed.cursorCol + 1 } }
  else if m.ed.cursorLine < m.ed.lineCount - 1 then
    { m with ed := { m.ed with cursorLine := m.ed.cursorLine + 1, cursorCol := 0 } }
  else m

/-- void cursorUp() (lines 152-159). -/
def cursorUp (m : Machine) : Machine :=
  if 0 < m.ed.cursorLine then
    let cl := m.ed.cursorLine - 1
    let len := (m.ed.lines.getD cl []).length
    { m with ed := { m.ed with
        cursorLine := cl
        cursorCol := if len < m.ed.cursorCol then len else m.ed.cursorCol } }
  else m

/-- void cursorDown() (lines 161-168). -/
def cursorDown (m : Machine) : Machine :=
  if m.ed.cursorLine < m.ed.lineCount - 1 then
    let cl := m.ed.cursorLine + 1
    let len := (m.ed.lines.getD cl []).length
    { m with ed := { m.ed with
        cursorLine := cl
        cursorCol := if len < m.ed.cursorCol then len else m.ed.cursorCol } }
  else m

/-- void ensureCursorVisible() (lines 170-178). -/
def ensureCursorVisible (m : Machine) : Machine :=
  let e := m.ed
  let sy1 := if e.cursorLine < e.scrollY then e.cursorLine else e.scrollY
  let sy2 := if sy1 + VISIBLE_LINES ≤ e.cursorLine then e.cursorLine - VISIBLE_LINES + 1 else sy1
  let lm := if e.showLineNumbers then 4 else 0
  let vc := CHARS_PER_LINE - lm
  let sx1 := if e.cursorCol < e.scrollX then e.cursorCol else e.scrollX
  let sx2 := if sx1 + vc ≤ e.cursorCol then e.cursorCol - vc + 1 else sx1
  { m with ed := { e with scrollY := sy2, scrollX := sx2 } }

-- TEXT EDITING (lines 183-287)

/-- void insertChar(char c) (lines 183-192).  String::substring(a,b) is
List.take/List.drop on the char list. -/
def insertChar (c : Char) (m0 : Machine) : Machine :=
  let m := pushUndo m0
  let line := m.ed.lines.getD m.ed.cursorLine []
  let line' :=
    if line.length ≤ m.ed.cursorCol then line ++ [c]
    else line.take m.ed.cursorCol ++ [c] ++ line.drop m.ed.cursorCol
  { m with ed := { m.ed with
      lines := m.ed.lines.set m.ed.cursorLine line'
      cursorCol := m.ed.cursorCol + 1 } }

/-- void handleBackspace() (lines 194-211).  In the merge branch the code
sets cursorCol to the previous line's pre-merge length, appends the current
line to the previous one, shifts the later lines up, blanks the last cell
and decrements lineCount and cursorLine. -/
def handleBackspace (m0 : Machine) : Machine :=
  if 0 < m0.ed.cursorCol then
    let m := pushUndo m0
    let line := m.ed.lines.getD m.ed.cursorLine []
    let line' := line.take (m.ed.cursorCol - 1) ++ line.drop m.ed.cursorCol
    { m with ed := { m.ed with
        lines := m.ed.lines.set m.ed.cursorLine line'
        cursorCol := m.ed.cursorCol - 1 } }
  else if 0 < m0.ed.cursorLine then
    let m := pushUndo m0
    let cl := m.ed.cursorLine
    let prevLen := (m.ed.lines.getD (cl - 1) []).length
    let merged := m.ed.lines.getD (cl - 1) [] ++ m.ed.lines.getD cl []
    let ls1 := m.ed.lines.set (cl - 1) merged
    let ls2 := shiftUp ls1 cl (m.ed.lineCount - 1)
    let ls3 := ls2.set (m.ed.lineCount - 1) []
    { m with ed := { m.ed with
        lines := ls3
        lineCount := m.ed.lineCount - 1
        cursorLine := cl - 1
        cursorCol := prevLen } }
  else m0

/-- void handleForwardDelete() (lines 213-227). -/
def handleForwardDelete (m0 : Machine) : Machine :=
  let line := m0.ed.lines.getD m0.ed.cursorLine []
  if m0.ed.cursorCol < line.length then
    let m := pushUndo m0
    let line' := line.take m.ed.cursorCol ++ line.drop (m.ed.cursorCol + 1)
    { m with ed := { m.ed with lines := m.ed.lines.set m.ed.cursorLine line' } }
  else if m0.ed.cursorLine < m0.ed.lineCount - 1 then
    let m := pushUndo m0
    let cl := m.ed.cursorLine
    let merged := m.ed.lines.getD cl [] ++ m.ed.lines.getD (cl + 1) []
    let ls1 := m.ed.lines.set cl merged
    let ls2 := shiftUp ls1 (cl + 1) (m.ed.lineCount - 1)
    let ls3 := ls2.set (m.ed.lineCount - 1) []
    { m with ed := { m.ed with lines := ls3, lineCount := m.ed.lineCount - 1 } }
  else m0

/-- void handleEnter() (lines 229-243). -/
def handleEnter (m0 : Machine) : Machine :=
  if MAX_LINES ≤ m0.ed.lineCount then m0
  else
    let m := pushUndo m0
    let cl := m.ed.cursorLine
    let line := m.ed.lines.getD cl []
    let remainder := line.drop m.ed.cursorCol
    let ls1 := m.ed.lines.set cl (line.take m.ed.cursorCol)
    let ls2 := shiftDown ls1 m.ed.lineCount (cl + 1)
    let ls3 := ls2.set (cl + 1) remainder
    { m with ed := { m.ed with
        lines := ls3
        cursorLine := cl + 1
        lineCount := m.ed.lineCount + 1
        cursorCol := 0 } }

/-- Helper for the loop in handleTab: for (i = 0; i < fuel; i++) insertChar(' '). -/
def handleTabAux : Nat → Machine → Machine
  | 0, m => m
  | fuel + 1, m => handleTabAux fuel (insertChar ' ' m)

/-- void handleTab() (lines 245-249). -/
def handleTab (m : Machine) : Machine :=
  handleTabAux TAB_WIDTH m

/-- void handleEscape() (lines 251-261). -/
def handleEscape (m : Machine) : Machine :=
  if m.ed.selectAll then
    { m with ed := { m.ed with selectAll := false, notification := "Selection cleared" } }
  else if 0 < m.ed.notification.length then
    { m with ed := { m.ed with notification := "" } }
  else
    { m with ed := { m.ed with notification := "ESC" } }

/-- void handleFKey(int num) (lines 263-266). -/
def handleFKey (num : Nat) (m : Machine) : Machine :=
  { m with ed := { m.ed with notification := "F" ++ toString num } }

/-- void handleSave() (lines 268-271). -/
def handleSave (m : Machine) : Machine :=
  { m with ed := { m.ed with notification := "Saved! (Ctrl+S)" } }

/-- void handleSelectAll() (lines 273-277). -/
def handleSelectAll (m : Machine) : Machine :=
  { m with ed := { m.ed with selectAll := true, notification := "Select All (Ctrl+A)" } }

/-- void handleCopy() (lines 279-282). -/
def handleCopy (m : Machine) : Machine :=
  { m with ed := { m.ed with notification := "Copy (Ctrl+C)" } }

/-- void handlePaste() (lines 284-287). -/
def handlePaste (m : Machine) : Machine :=
  { m with ed := { m.ed with notification := "Paste (Ctrl+V)" } }

/-- Initial machine after setup() (lines 386-397): one empty line, cursor at
the origin, empty zero-initialised undo ring, previous-frame flags clear. -/
def initMachine : Machine :=
  { ed :=
      { lines := List.replicate MAX_LINES []
        lineCount := 1
        cursorLine := 0
        cursorCol := 0
        scrollY := 0
        scrollX := 0
        capsLock := false
        selectAll := false
        showLineNumbers := false
        notification := "Ready - type away!" }
    undoStack := List.replicate UNDO_STACK_SIZE
      { lines := List.replicate MAX_LINES []
        lineCount := 0
        cursorLine := 0
        cursorCol := 0
        valid := false }
    undoHead := 0
    undoCount := 0
    prevFn := false
    prevShift := false }

-- MAIN LOOP (lines 405-506)

/-- Keyboard_Class::KeysState, restricted to the fields the sketch reads. -/
structure KeysState where
  word : List Char
  fn : Bool
  shift : Bool
  ctrl : Bool
  alt : Bool
  opt : Bool
  del : Bool
  enter : Bool
  tab : Bool
deriving DecidableEq

/-- Abstract actions performed by one pressed poll, used to observe which
handlers the dispatch in loop() actually invokes. -/
inductive KeyAct where
  | capsToggle
  | arrowUp
  | arrowLeft
  | arrowDown
  | arrowRight
  | escapeKey
  | fkey (n : Nat)
  | forwardDelete
  | save
  | undo
  | selectAllKey
  | copy
  | paste
  | altIndicator
  | optToggle
  | backspace
  | enterKey
  | tabKey
  | insert (c : Char)
  | clearAll
deriving DecidableEq

/-- ASCII tolower, as used on s.word characters in the Ctrl branch. -/
def tolowerChar (c : Char) : Char :=
  if 'A' ≤ c ∧ c ≤ 'Z' then Char.ofNat (c.toNat + 32) else c

/-- One iteration of the Fn-layer switch over s.word (lines 424-437). -/
def fnCharAction (c : Char) (m : Machine) : Machine × Option KeyAct :=
  if c = ';' then (cursorUp m, some .arrowUp)
  else if c = ',' then (cursorLeft m, some .arrowLeft)
  else if c = '.' then (cursorDown m, some .arrowDown)
  else if c = '/' then (cursorRight m, some .arrowRight)
  else if c = '`' then (handleEscape m, some .escapeKey)
  else if '1' ≤ c ∧ c ≤ '9' then
    (handleFKey (c.toNat - '0'.toNat) m, some (.fkey (c.toNat - '0'.toNat)))
  else if c = '0' then (handleFKey 10 m, some (.fkey 10))
  else (m, none)

/-- The Fn-layer for-loop over s.word. -/
def fnWordLoop : List Char → Machine × List KeyAct → Machine × List KeyAct
  | [], acc => acc
  | c :: cs, (m, as) =>
    let (m', a) := fnCharAction c m
    fnWordLoop cs (m', as ++ a.toList)

/-- One iteration of the Ctrl-shortcut switch over s.word (lines 448-456). -/
def ctrlCharAction (c : Char) (m : Machine) : Machine × Option KeyAct :=
  let lc := tolowerChar c
  if lc = 's' then (handleSave m, some .save)
  else if lc = 'z' then (popUndo m, some .undo)
  else if lc = 'a' then (handleSelectAll m, some .selectAllKey)
  else if lc = 'c' then (handleCopy m, some .copy)
  else if lc = 'v' then (handlePaste m, some .paste)
  else (m, none)

/-- The Ctrl-shortcut for-loop over s.word. -/
def ctrlWordLoop : List Char → Machine × List KeyAct → Machine × List KeyAct
  | [], acc => acc
  | c :: cs, (m, as) =>
    let (m', a) := ctrlCharAction c m
    ctrlWordLoop cs (m', as ++ a.toList)

/-- Body of the printable-input loop (lines 483-494): the first keystroke
after select-all snapshots, resets the buffer to one empty line, clears
the flag and then inserts normally. -/
def selInsertStep (c : Char) (m : Machine) : Machine × List KeyAct :=
  if m.ed.selectAll then
    let m1 := pushUndo m
    let m2 := { m1 with ed := { m1.ed with
        lineCount := 1
        lines := m1.ed.lines.set 0 []
        cursorLine := 0
        cursorCol := 0
        selectAll := false } }
    (insertChar c m2, [.clearAll, .insert c])
  else (insertChar c m, [.insert c])

/-- The printable-input for-loop over s.word. -/
def selWordLoop : List Char → Machine × List KeyAct → Machine × List KeyAct
  | [], acc => acc
  | c :: cs, (m, as) =>
    let (m', a) := selInsertStep c m
    selWordLoop cs (m', as ++ a)

/-- The condition guarding the caps-lock toggle (line 413): the combo edge. -/
def comboCond (s : KeysState) (m : Machine) : Bool :=
  s.fn && s.shift && !(m.prevFn && m.prevShift)

/-- The isChange-and-isPressed branch of loop() (lines 410-499), returning the
updated machine together with the trace of actions the poll performed. -/
def processPressed (s : KeysState) (m0 : Machine) : Machine × List KeyAct :=
  let (m1, a1) :=
    if comboCond s m0 then
      ({ m0 with ed := { m0.ed with
          capsLock := !m0.ed.capsLock
          notification := if !m0.ed.capsLock then "CAPS ON" else "CAPS OFF" } },
       [KeyAct.capsToggle])
    else (m0, [])
  let m2 := { m1 with prevFn := s.fn, prevShift := s.shift }
  if s.fn then
    let (m3, a3) := fnWordLoop s.word (m2, [])
    let (m4, a4) :=
      if s.del then (handleForwardDelete m3, [KeyAct.forwardDelete]) else (m3, [])
    (ensureCursorVisible m4, a1 ++ a3 ++ a4)
  else if s.ctrl then
    let (m3, a3) := ctrlWordLoop s.word (m2, [])
    (m3, a1 ++ a3)
  else
    let (m3, a3) :=
      if s.alt then
        ({ m2 with ed := { m2.ed with notification := "ALT held" } }, [KeyAct.altIndicator])
      else (m2, [])
    let (m4, a4) :=
      if s.opt then
        ({ m3 with ed := { m3.ed with
            showLineNumbers := !m3.ed.showLineNumbers
            notification := if !m3.ed.showLineNumbers then "Line numbers ON" else "Line numbers OFF" } },
         [KeyAct.optToggle])
      else (m3, [])
    let (m5, a5) := if s.del then (handleBackspace m4, [KeyAct.backspace]) else (m4, [])
    let (m6, a6) := if s.enter then (handleEnter m5, [KeyAct.enterKey]) else (m5, [])
    let (m7, a7) := if s.tab then (handleTab m6, [KeyAct.tabKey]) else (m6, [])
    let (m8, a8) := selWordLoop s.word (m7, [])
    (ensureCursorVisible m8, a1 ++ a3 ++ a4 ++ a5 ++ a6 ++ a7 ++ a8)

/-- One poll with a keyboard change: some s is the pressed branch, none is
the all-keys-released branch (lines 501-505), which resets the
previous-frame combo context. -/
def pollStep (m : Machine) : Option KeysState → Machine
  | some s => (processPressed s m).1
  | none => { m with prevFn := false, prevShift := false }

/-- Number of polls in the sequence on which the caps-lock combo edge fires. -/
def countFires (m : Machine) : List (Option KeysState) → Nat
  | [] => 0
  | p :: ps =>
    (match p with
     | some s => if comboCond s m then 1 else 0
     | none => 0) + countFires (pollStep m p) ps

/-- The buffer/cursor operations named by the editor contracts. -/
inductive EditOp where
  | insertOp (c : Char)
  | backspaceOp
  | forwardDeleteOp
  | enterOp
  | tabOp
  | leftOp
  | rightOp
  | upOp
  | downOp
  | selectAllOp
  | escapeOp
  | undoOp
deriving DecidableEq

/-- Dispatch of an EditOp to the handler implementing it in the sketch. -/
def applyOp : EditOp → Machine → Machine
  | .insertOp c => insertChar c
  | .backspaceOp => handleBackspace
  | .forwardDeleteOp => handleForwardDelete
  | .enterOp => handleEnter
  | .tabOp => handleTab
  | .leftOp => cursorLeft
  | .rightOp => cursorRight
  | .upOp => cursorUp
  | .downOp => cursorDown
  | .selectAllOp => handleSelectAll
  | .escapeOp => handleEscape
  | .undoOp => popUndo

-- BASIC LIST LEMMAS used throughout

theorem getD_set_self {α : Type} (l : List α) (i : Nat) (a d : α) (h : i < l.length) :
    (l.set i a).getD i d = a := by
  simp [List.getD_eq_getElem?_getD, List.getElem?_set_self h]

theorem getD_set_of_ne {α : Type} (l : List α) (i j : Nat) (a d : α) (h : i ≠ j) :
    (l.set i a).getD j d = l.getD j d := by
  simp [List.getD_eq_getElem?_getD, List.getElem?_set_ne h]

theorem getD_of_len_le (l : List Line) (i : Nat) (h : l.length ≤ i) :
    l.getD i [] = [] := by
  rw [List.getD_eq_getElem?_getD, List.getElem?_eq_none h]
  rfl

theorem copyLines_length (dst src : List Line) (n : Nat) :
    (copyLines dst src n).length = dst.length := by
  induction n with
  | zero => rfl
  | succ n ih => simp [copyLines, ih]

theorem copyLines_getD_of_lt (dst src : List Line) (n j : Nat)
    (h : j < n) (hj : j < dst.length) :
    (copyLines dst src n).getD j [] = src.getD j [] := by
  induction n with
  | zero => omega
  | succ n ih =>
    by_cases hjn : j = n
    · subst hjn
      exact getD_set_self _ _ _ _ (by rw [copyLines_length]; exact hj)
    · rw [copyLines, getD_set_of_ne _ _ _ _ _ (fun hx => hjn hx.symm)]
      exact ih (by omega)

theorem copyLines_getD_of_ge (dst src : List Line) (n j : Nat) (h : n ≤ j) :
    (copyLines dst src n).getD j [] = dst.getD j [] := by
  induction n with
  | zero => rfl
  | succ n ih =>
    rw [copyLines, getD_set_of_ne _ _ _ _ _ (by omega)]
    exact ih (by omega)

theorem shiftUpAux_length (f i : Nat) (ls : List Line) :
    (shiftUpAux f i ls).length = ls.length := by
  induction f generalizing i ls with
  | zero => rfl
  | succ f ih => simp [shiftUpAux, ih]

theorem shiftUpAux_getD_of_lt (f i j : Nat) (ls : List Line) (h : j < i) :
    (shiftUpAux f i ls).getD j [] = ls.getD j [] := by
  induction f generalizing i ls with
  | zero => rfl
  | succ f ih =>
    rw [shiftUpAux, ih _ _ (by omega), getD_set_of_ne _ _ _ _ _ (by omega)]

theorem shiftUpAux_getD_of_ge (f i j : Nat) (ls : List Line) (h : i + f ≤ j) :
    (shiftUpAux f i ls).getD j [] = ls.getD j [] := by
  induction f generalizing i ls with
  | zero => rfl
  | succ f ih =>
    rw [shiftUpAux, ih _ _ (by omega), getD_set_of_ne _ _ _ _ _ (by omega)]

theorem shiftUpAux_getD_mid (f i j : Nat) (ls : List Line)
    (h1 : i ≤ j) (h2 : j < i + f) :
    (shiftUpAux f i ls).getD j [] = ls.getD (j + 1) [] := by
  induction f generalizing i ls with
  | zero => omega
  | succ f ih =>
    by_cases hji : j = i
    · subst hji
      rw [shiftUpAux, shiftUpAux_getD_of_lt _ _ _ _ (by omega)]
      by_cases hl : j < ls.length
      · exact getD_set_self _ _ _ _ hl
      · rw [getD_of_len_le _ _ (by simp; omega), getD_of_len_le _ _ (by omega)]
    · rw [shiftUpAux, ih _ _ (by omega) (by omega),
        getD_set_of_ne _ _ _ _ _ (by omega)]

theorem shiftDownAux_length (f i : Nat) (ls : List Line) :
    (shiftDownAux f i ls).length = ls.length := by
  induction f generalizing i ls with
  | zero => rfl
  | succ f ih => simp [shiftDownAux, ih]

theorem shiftDownAux_getD_of_gt (f i j : Nat) (ls : List Line) (h : i < j) :
    (shiftDownAux f i ls).getD j [] = ls.getD j [] := by
  induction f generalizing i ls with
  | zero => rfl
  | succ f ih =>
    rw [shiftDownAux, ih _ _ (by omega), getD_set_of_ne _ _ _ _ _ (by omega)]

theorem shiftDownAux_getD_of_le (f i j : Nat) (ls : List Line)
    (hf : f ≤ i) (h : j ≤ i - f) :
    (shiftDownAux f i ls).getD j [] = ls.getD j [] := by
  induction f generalizing i ls with
  | zero => rfl
  | succ f ih =>
    rw [shiftDownAux, ih _ _ (by omega) (by omega), getD_set_of_ne _ _ _ _ _ (by omega)]

theorem shiftDownAux_getD_mid (f i j : Nat) (ls : List Line)
    (hf : f ≤ i) (h1 : i - f < j) (h2 : j ≤ i) (hj : j < ls.length) :
    (shiftDownAux f i ls).getD j [] = ls.getD (j - 1) [] := by
  induction f generalizing i ls with
  | zero => omega
  | succ f ih =>
    by_cases hji : j = i
    · subst hji
      rw [shiftDownAux, shiftDownAux_getD_of_gt _ _ _ _ (by omega)]
      exact getD_set_self _ _ _ _ hj
    · rw [shiftDownAux, ih _ _ (by omega) (by omega) (by omega)
        (by rw [List.length_set]; omega), getD_set_of_ne _ _ _ _ _ (by omega)]

-- PUSH/SNAPSHOT CHARACTERISATION

theorem pushUndo_ed (m : Machine) : (pushUndo m).ed = m.ed := rfl

/-- What the spec calls "pushes one snapshot": relative to the pre-state m,
the post-state r has advanced the ring head by one (mod 20), bumped the
count (capped at 20), and the slot at the old head now holds a valid full
snapshot of m's buffer and cursor. -/
def snapshotPushed (m r : Machine) : Prop :=
  r.undoHead = (m.undoHead + 1) % UNDO_STACK_SIZE ∧
  r.undoCount = (if m.undoCount < UNDO_STACK_SIZE then m.undoCount + 1 else m.undoCount) ∧
  (r.undoStack.getD m.undoHead default).valid = true ∧
  (r.undoStack.getD m.undoHead default).lineCount = m.ed.lineCount ∧
  (r.undoStack.getD m.undoHead default).cursorLine = m.ed.cursorLine ∧
  (r.undoStack.getD m.undoHead default).cursorCol = m.ed.cursorCol ∧
  ∀ i, i < m.ed.lineCount → i < (m.undoStack.getD m.undoHead default).lines.length →
    (r.undoStack.getD m.undoHead default).lines.getD i [] = m.ed.lines.getD i []

theorem snapshotPushed_pushUndo (m : Machine) (hh : m.undoHead < m.undoStack.length) :
    snapshotPushed m (pushUndo m) := by
  unfold snapshotPushed pushUndo
  refine ⟨rfl, rfl, ?_, ?_, ?_, ?_, ?_⟩ <;>
    simp only [getD_set_self _ _ _ _ hh]
  intro i hi hlen
  exact copyLines_getD_of_lt _ _ _ _ hi hlen

theorem snapshotPushed_of_eq (m r : Machine) (hh : m.undoHead < m.undoStack.length)
    (h1 : r.undoStack = (pushUndo m).undoStack)
    (h2 : r.undoHead = (pushUndo m).undoHead)
    (h3 : r.undoCount = (pushUndo m).undoCount) :
    snapshotPushed m r := by
  have hp := snapshotPushed_pushUndo m hh
  unfold snapshotPushed at hp ⊢
  rw [h1, h2, h3]
  exact hp

-- CLAIM C9

/-- C9: for every editor state, Tab is equivalent to performing
InsertChar of a space four times in sequence: the resulting machine
(lines, lineCount, cursor and the whole undo ring) is identical. -/
theorem tab_equals_four_space_inserts (m : Machine) :
    handleTab m =
      insertChar ' ' (insertChar ' ' (insertChar ' ' (insertChar ' ' m))) := rfl

-- CLAIM C5

/-- C5: Enter below capacity pushes one snapshot, truncates the current
line at the cursor, inserts the remainder as a new line directly below
(shifting later lines down by one), increments lineCount and moves the
cursor to the start of the new line; at capacity (100 lines) it leaves
the machine entirely unchanged. -/
theorem enter_spec (m : Machine)
    (hlen : m.ed.lines.length = 100)
    (hh : m.undoHead < m.undoStack.length)
    (hcl : m.ed.cursorLine < m.ed.lineCount) :
    (m.ed.lineCount < 100 →
      (handleEnter m).ed.lineCount = m.ed.lineCount + 1 ∧
      (handleEnter m).ed.cursorLine = m.ed.cursorLine + 1 ∧
      (handleEnter m).ed.cursorCol = 0 ∧
      (handleEnter m).ed.lines.getD m.ed.cursorLine [] =
        (m.ed.lines.getD m.ed.cursorLine []).take m.ed.cursorCol ∧
      (handleEnter m).ed.lines.getD (m.ed.cursorLine + 1) [] =
        (m.ed.lines.getD m.ed.cursorLine []).drop m.ed.cursorCol ∧
      (∀ j, j < m.ed.cursorLine →
        (handleEnter m).ed.lines.getD j [] = m.ed.lines.getD j []) ∧
      (∀ j, m.ed.cursorLine + 2 ≤ j → j ≤ m.ed.lineCount →
        (handleEnter m).ed.lines.getD j [] = m.ed.lines.getD (j - 1) []) ∧
      snapshotPushed m (handleEnter m)) ∧
    (100 ≤ m.ed.lineCount → handleEnter m = m) := by
  constructor
  · intro hcap
    have hstack : (handleEnter m).undoStack = (pushUndo m).undoStack := by
      unfold handleEnter
      rw [if_neg (by unfold MAX_LINES; omega)]
    have hhead : (handleEnter m).undoHead = (pushUndo m).undoHead := by
      unfold handleEnter
      rw [if_neg (by unfold MAX_LINES; omega)]
    have hcount : (handleEnter m).undoCount = (pushUndo m).undoCount := by
      unfold handleEnter
      rw [if_neg (by unfold MAX_LINES; omega)]
    refine ⟨?_, ?_, ?_, ?_, ?_, ?_, ?_, snapshotPushed_of_eq m _ hh hstack hhead hcount⟩
    · unfold handleEnter
      rw [if_neg (by unfold MAX_LINES; omega)]
      rfl
    · unfold handleEnter
      rw [if_neg (by unfold MAX_LINES; omega)]
      rfl
    · unfold handleEnter
      rw [if_neg (by unfold MAX_LINES; omega)]
    · unfold handleEnter
      rw [if_neg (by unfold MAX_LINES; omega)]
      dsimp only
      simp only [pushUndo_ed]
      rw [getD_set_of_ne _ _ _ _ _ (by omega)]
      unfold shiftDown
      rw [shiftDownAux_getD_of_le _ _ _ _ (by omega) (by omega)]
      exact getD_set_self _ _ _ _ (by omega)
    · unfold handleEnter
      rw [if_neg (by unfold MAX_LINES; omega)]
      dsimp only
      simp only [pushUndo_ed]
      refine getD_set_self _ _ _ _ ?_
      unfold shiftDown
      rw [shiftDownAux_length, List.length_set]
      omega
    · intro j hj
      unfold handleEnter
      rw [if_neg (by unfold MAX_LINES; omega)]
      dsimp only
      simp only [pushUndo_ed]
      rw [getD_set_of_ne _ _ _ _ _ (by omega)]
      unfold shiftDown
      rw [shiftDownAux_getD_of_le _ _ _ _ (by omega) (by omega)]
      exact getD_set_of_ne _ _ _ _ _ (by omega)
    · intro j hj1 hj2
      unfold handleEnter
      rw [if_neg (by unfold MAX_LINES; omega)]
      dsimp only
      simp only [pushUndo_ed]
      rw [getD_set_of_ne _ _ _ _ _ (by omega)]
      unfold shiftDown
      rw [shiftDownAux_getD_mid _ _ _ _ (by omega) (by omega) (by omega)
        (by rw [List.length_set]; omega)]
      exact getD_set_of_ne _ _ _ _ _ (by omega)
  · intro hcap
    unfold handleEnter
    rw [if_pos (by unfold MAX_LINES; omega)]

/-- Closed instantiation of enter_spec at the initial machine. -/
theorem enter_spec_witness :
    (handleEnter initMachine).ed.lineCount = 2 ∧
    (handleEnter initMachine).ed.cursorLine = 1 := by
  have h := (enter_spec initMachine (by decide) (by decide) (by decide)).1 (by decide)
  exact ⟨h.1, h.2.1⟩

/-- Concrete machine sitting exactly at the line-capacity bound, with no
notification pending. -/
def capacityMachine : Machine :=
  { initMachine with ed := { initMachine.ed with lineCount := 100, notification := "" } }

/-- C5 counterexample to the "reported" part: at capacity handleEnter
silently returns: the machine is entirely unchanged and in particular no
notification is produced. -/
theorem enter_at_capacity_silent :
    handleEnter capacityMachine = capacityMachine ∧
    (handleEnter capacityMachine).ed.notification = "" := by
  constructor
  · unfold handleEnter
    rw [if_pos (by decide)]
  · unfold handleEnter
    rw [if_pos (by decide)]
    rfl

-- CLAIM C4

/-- C4: Backspace with column > 0 pushes one snapshot and removes the
character left of the cursor, decrementing the column; at column 0 of a
non-first line it pushes one snapshot, appends the current line to the end
of the previous one, shifts the following lines up (lineCount decreases by
exactly one) and puts the cursor at the join point (previous line, at its
pre-merge length); at (0,0) it changes nothing and pushes nothing. -/
theorem backspace_spec (m : Machine)
    (hlen : m.ed.lines.length = 100)
    (hh : m.undoHead < m.undoStack.length)
    (hcl : m.ed.cursorLine < m.ed.lineCount)
    (hlc : m.ed.lineCount ≤ 100) :
    (0 < m.ed.cursorCol →
      (handleBackspace m).ed.lines.getD m.ed.cursorLine [] =
        (m.ed.lines.getD m.ed.cursorLine []).eraseIdx (m.ed.cursorCol - 1) ∧
      (handleBackspace m).ed.cursorCol = m.ed.cursorCol - 1 ∧
      (handleBackspace m).ed.cursorLine = m.ed.cursorLine ∧
      (handleBackspace m).ed.lineCount = m.ed.lineCount ∧
      (∀ j, j ≠ m.ed.cursorLine →
        (handleBackspace m).ed.lines.getD j [] = m.ed.lines.getD j []) ∧
      snapshotPushed m (handleBackspace m)) ∧
    (m.ed.cursorCol = 0 → 0 < m.ed.cursorLine →
      (handleBackspace m).ed.lineCount = m.ed.lineCount - 1 ∧
      (handleBackspace m).ed.cursorLine = m.ed.cursorLine - 1 ∧
      (handleBackspace m).ed.cursorCol =
        (m.ed.lines.getD (m.ed.cursorLine - 1) []).length ∧
      (handleBackspace m).ed.lines.getD (m.ed.cursorLine - 1) [] =
        m.ed.lines.getD (m.ed.cursorLine - 1) [] ++ m.ed.lines.getD m.ed.cursorLine [] ∧
      (∀ j, j < m.ed.cursorLine - 1 →
        (handleBackspace m).ed.lines.getD j [] = m.ed.lines.getD j []) ∧
      (∀ j, m.ed.cursorLine ≤ j → j < m.ed.lineCount - 1 →
        (handleBackspace m).ed.lines.getD j [] = m.ed.lines.getD (j + 1) []) ∧
      snapshotPushed m (handleBackspace m)) ∧
    (m.ed.cursorCol = 0 → m.ed.cursorLine = 0 → handleBackspace m = m) := by
  refine ⟨fun hpos => ?_, fun hz hcl0 => ?_, fun hz hl0 => ?_⟩
  · have hstack : (handleBackspace m).undoStack = (pushUndo m).undoStack := by
      unfold handleBackspace
      rw [if_pos hpos]
    have hhead : (handleBackspace m).undoHead = (pushUndo m).undoHead := by
      unfold handleBackspace
      rw [if_pos hpos]
    have hcount : (handleBackspace m).undoCount = (pushUndo m).undoCount := by
      unfold handleBackspace
      rw [if_pos hpos]
    refine ⟨?_, ?_, ?_, ?_, ?_, snapshotPushed_of_eq m _ hh hstack hhead hcount⟩
    · unfold handleBackspace
      rw [if_pos hpos]
      dsimp only
      simp only [pushUndo_ed]
      rw [getD_set_self _ _ _ _ (by omega), List.eraseIdx_eq_take_drop_succ]
      have hsucc : m.ed.cursorCol - 1 + 1 = m.ed.cursorCol := by omega
      rw [hsucc]
    · unfold handleBackspace
      rw [if_pos hpos]
      rfl
    · unfold handleBackspace
      rw [if_pos hpos]
      rfl
    · unfold handleBackspace
      rw [if_pos hpos]
      rfl
    · intro j hj
      unfold handleBackspace
      rw [if_pos hpos]
      dsimp only
      simp only [pushUndo_ed]
      exact getD_set_of_ne _ _ _ _ _ (fun hx => hj hx.symm)
  · have hstack : (handleBackspace m).undoStack = (pushUndo m).undoStack := by
      unfold handleBackspace
      rw [if_neg (by omega), if_pos hcl0]
    have hhead : (handleBackspace m).undoHead = (pushUndo m).undoHead := by
      unfold handleBackspace
      rw [if_neg (by omega), if_pos hcl0]
    have hcount : (handleBackspace m).undoCount = (pushUndo m).undoCount := by
      unfold handleBackspace
      rw [if_neg (by omega), if_pos hcl0]
    refine ⟨?_, ?_, ?_, ?_, ?_, ?_, snapshotPushed_of_eq m _ hh hstack hhead hcount⟩
    · unfold handleBackspace
      rw [if_neg (by omega), if_pos hcl0]
      rfl
    · unfold handleBackspace
      rw [if_neg (by omega), if_pos hcl0]
      rfl
    · unfold handleBackspace
      rw [if_neg (by omega), if_pos hcl0]
      rfl
    · unfold handleBackspace
      rw [if_neg (by omega), if_pos hcl0]
      dsimp only
      simp only [pushUndo_ed]
      rw [getD_set_of_ne _ _ _ _ _ (by omega)]
      unfold shiftUp
      rw [shiftUpAux_getD_of_lt _ _ _ _ (by omega)]
      exact getD_set_self _ _ _ _ (by omega)
    · intro j hj
      unfold handleBackspace
      rw [if_neg (by omega), if_pos hcl0]
      dsimp only
      simp only [pushUndo_ed]
      rw [getD_set_of_ne _ _ _ _ _ (by omega)]
      unfold shiftUp
      rw [shiftUpAux_getD_of_lt _ _ _ _ (by omega)]
      exact getD_set_of_ne _ _ _ _ _ (by omega)
    · intro j hj1 hj2
      unfold handleBackspace
      rw [if_neg (by omega), if_pos hcl0]
      dsimp only
      simp only [pushUndo_ed]
      rw [getD_set_of_ne _ _ _ _ _ (by omega)]
      unfold shiftUp
      rw [shiftUpAux_getD_mid _ _ _ _ (by omega) (by omega)]
      exact getD_set_of_ne _ _ _ _ _ (by omega)
  · unfold handleBackspace
    rw [if_neg (by omega), if_neg (by omega)]

/-- Closed instantiation of backspace_spec: at the origin of a fresh buffer
Backspace is a strict no-op. -/
theorem backspace_spec_witness : handleBackspace initMachine = initMachine :=
  (backspace_spec initMachine (by decide) (by decide) (by decide) (by decide)).2.2 rfl rfl

-- CLAIM C6

/-- The ring slot popUndo reads: one before the head, mod the ring size. -/
def topEntry (m : Machine) : UndoEntry :=
  m.undoStack.getD ((m.undoHead + (UNDO_STACK_SIZE - 1)) % UNDO_STACK_SIZE) default

/-- C6: Undo on an empty history reports "Nothing to undo" and changes
nothing else (buffer, cursor and the whole undo ring are untouched); with a
non-empty history (whose top slot is a valid snapshot, as every pushed slot
is) it pops the most recently pushed snapshot and replaces buffer and
cursor with its contents. -/
theorem undo_spec (m : Machine)
    (hlen : m.ed.lines.length = 100) :
    (m.undoCount = 0 →
      popUndo m = { m with ed := { m.ed with notification := "Nothing to undo" } }) ∧
    (0 < m.undoCount →
      (topEntry m).valid = true →
      (topEntry m).lineCount ≤ 100 →
      (popUndo m).ed.lineCount = (topEntry m).lineCount ∧
      (popUndo m).ed.cursorLine = (topEntry m).cursorLine ∧
      (popUndo m).ed.cursorCol = (topEntry m).cursorCol ∧
      (∀ i, i < (topEntry m).lineCount →
        (popUndo m).ed.lines.getD i [] = (topEntry m).lines.getD i []) ∧
      (popUndo m).undoCount = m.undoCount - 1 ∧
      (popUndo m).undoHead = (m.undoHead + (UNDO_STACK_SIZE - 1)) % UNDO_STACK_SIZE ∧
      (popUndo m).undoStack = m.undoStack ∧
      (popUndo m).ed.notification = "Undo") := by
  constructor
  · intro h0
    unfold popUndo
    rw [if_pos h0]
  · intro hpos hvalid hcap
    have hvne : ¬((topEntry m).valid = false) := by
      rw [hvalid]
      simp
    unfold popUndo
    rw [if_neg (by omega)]
    unfold topEntry at hvne hvalid hcap ⊢
    rw [if_neg hvne]
    refine ⟨rfl, rfl, rfl, ?_, rfl, rfl, rfl, rfl⟩
    intro i hi
    dsimp only
    exact copyLines_getD_of_lt _ _ _ _ hi (by omega)

/-- Closed instantiation of undo_spec: on the fresh machine the history is
empty, so Undo only sets the notification. -/
theorem undo_spec_witness :
    popUndo initMachine =
      { initMachine with ed := { initMachine.ed with notification := "Nothing to undo" } } :=
  (undo_spec initMachine (by decide)).1 rfl

-- CLAIM C8

/-- C8: handleSelectAll sets the selection flag; handleEscape clears a set
flag; and the next InsertChar processed by the input loop while the flag is
set first pushes a snapshot of the pre-state, clears the buffer to a single
empty line with cursor at the origin, clears the flag, and then performs a
normal insert of the character, leaving one line holding exactly that
character with the cursor at column 1. -/
theorem select_all_insert_spec (m : Machine) (c : Char)
    (hlen : m.ed.lines.length = 100)
    (hsl : m.undoStack.length = 20)
    (hh : m.undoHead < 20) :
    (handleSelectAll m).ed.selectAll = true ∧
    (m.ed.selectAll = true → (handleEscape m).ed.selectAll = false) ∧
    (m.ed.selectAll = true →
      (selInsertStep c m).1 =
        insertChar c
          { pushUndo m with ed := { m.ed with
              lineCount := 1
              lines := m.ed.lines.set 0 []
              cursorLine := 0
              cursorCol := 0
              selectAll := false } } ∧
      (selInsertStep c m).1.ed.lineCount = 1 ∧
      (selInsertStep c m).1.ed.lines.getD 0 [] = [c] ∧
      (selInsertStep c m).1.ed.cursorLine = 0 ∧
      (selInsertStep c m).1.ed.cursorCol = 1 ∧
      (selInsertStep c m).1.ed.selectAll = false ∧
      ((selInsertStep c m).1.undoStack.getD m.undoHead default).valid = true ∧
      ((selInsertStep c m).1.undoStack.getD m.undoHead default).lineCount = m.ed.lineCount ∧
      ((selInsertStep c m).1.undoStack.getD m.undoHead default).cursorLine = m.ed.cursorLine ∧
      ((selInsertStep c m).1.undoStack.getD m.undoHead default).cursorCol = m.ed.cursorCol ∧
      ∀ i, i < m.ed.lineCount → i < (m.undoStack.getD m.undoHead default).lines.length →
        ((selInsertStep c m).1.undoStack.getD m.undoHead default).lines.getD i [] =
          m.ed.lines.getD i []) := by
  refine ⟨rfl, fun hs => ?_, fun hs => ?_⟩
  · unfold handleEscape
    rw [if_pos hs]
  · refine ⟨?_, ?_, ?_, ?_, ?_, ?_, ?_, ?_, ?_, ?_, ?_⟩
    · unfold selInsertStep
      rw [if_pos hs]
      rfl
    · unfold selInsertStep
      rw [if_pos hs]
      rfl
    · unfold selInsertStep
      rw [if_pos hs]
      dsimp only
      unfold insertChar
      dsimp only
      simp only [pushUndo_ed]
      have h0 : ((m.ed.lines.set 0 []).getD 0 []) = [] :=
        getD_set_self _ _ _ _ (by omega)
      rw [h0, if_pos (by simp)]
      exact getD_set_self _ _ _ _ (by simp; omega)
    · unfold selInsertStep
      rw [if_pos hs]
      rfl
    · unfold selInsertStep
      rw [if_pos hs]
      rfl
    · unfold selInsertStep
      rw [if_pos hs]
      rfl
    · unfold selInsertStep
      rw [if_pos hs]
      dsimp only
      unfold insertChar
      dsimp only
      unfold pushUndo
      dsimp only
      rw [getD_set_of_ne _ _ _ _ _ (by unfold UNDO_STACK_SIZE; omega),
        getD_set_self _ _ _ _ (by omega)]
    · unfold selInsertStep
      rw [if_pos hs]
      dsimp only
      unfold insertChar
      dsimp only
      unfold pushUndo
      dsimp only
      rw [getD_set_of_ne _ _ _ _ _ (by unfold UNDO_STACK_SIZE; omega),
        getD_set_self _ _ _ _ (by omega)]
    · unfold selInsertStep
      rw [if_pos hs]
      dsimp only
      unfold insertChar
      dsimp only
      unfold pushUndo
      dsimp only
      rw [getD_set_of_ne _ _ _ _ _ (by unfold UNDO_STACK_SIZE; omega),
        getD_set_self _ _ _ _ (by omega)]
    · unfold selInsertStep
      rw [if_pos hs]
      dsimp only
      unfold insertChar
      dsimp only
      unfold pushUndo
      dsimp only
      rw [getD_set_of_ne _ _ _ _ _ (by unfold UNDO_STACK_SIZE; omega),
        getD_set_self _ _ _ _ (by omega)]
    · intro i hi hil
      unfold selInsertStep
      rw [if_pos hs]
      dsimp only
      unfold insertChar
      dsimp only
      unfold pushUndo
      dsimp only
      rw [getD_set_of_ne _ _ _ _ _ (by unfold UNDO_STACK_SIZE; omega),
        getD_set_self _ _ _ _ (by omega)]
      exact copyLines_getD_of_lt _ _ _ _ hi hil

/-- Closed instantiation of select_all_insert_spec: select-all on the fresh
machine, then inserting a character, leaves exactly that character. -/
theorem select_all_insert_spec_witness :
    (selInsertStep 'x' (handleSelectAll initMachine)).1.ed.lines.getD 0 [] = ['x'] ∧
    (selInsertStep 'x' (handleSelectAll initMachine)).1.ed.selectAll = false := by
  have h := (select_all_insert_spec (handleSelectAll initMachine) 'x'
    (by decide) (by decide) (by decide)).2.2 rfl
  exact ⟨h.2.2.1, h.2.2.2.2.2.1⟩

-- CLAIM C10

/-- The machine with the selection flag forced to b, all else unchanged. -/
def withSel (m : Machine) (b : Bool) : Machine :=
  { m with ed := { m.ed with selectAll := b } }

/-- C10: while the selection flag is set, every buffer operation other than
the loop's InsertChar path and Escape leaves the flag set, and Backspace,
Enter and Undo are entirely independent of the flag: they compute the same
result whatever the flag is (so they act only at the cursor and never clear
the whole buffer or the flag). -/
theorem select_all_frame (op : EditOp) (m : Machine) (b : Bool)
    (hsel : m.ed.selectAll = true)
    (hne : op ≠ .escapeOp) (hni : ∀ c, op ≠ .insertOp c) :
    (applyOp op m).ed.selectAll = true ∧
    handleBackspace (withSel m b) = withSel (handleBackspace m) b ∧
    handleEnter (withSel m b) = withSel (handleEnter m) b ∧
    popUndo (withSel m b) = withSel (popUndo m) b := by
  refine ⟨?_, ?_, ?_, ?_⟩
  · cases op with
    | insertOp c => exact absurd rfl (hni c)
    | escapeOp => exact absurd rfl hne
    | backspaceOp =>
      show (handleBackspace m).ed.selectAll = true
      rw [← hsel]
      unfold handleBackspace
      dsimp only
      split_ifs <;> rfl
    | forwardDeleteOp =>
      show (handleForwardDelete m).ed.selectAll = true
      rw [← hsel]
      unfold handleForwardDelete
      dsimp only
      split_ifs <;> rfl
    | enterOp =>
      show (handleEnter m).ed.selectAll = true
      rw [← hsel]
      unfold handleEnter
      dsimp only
      split_ifs <;> rfl
    | tabOp =>
      show (handleTab m).ed.selectAll = true
      rw [← hsel]
      rfl
    | leftOp =>
      show (cursorLeft m).ed.selectAll = true
      rw [← hsel]
      unfold cursorLeft
      dsimp only
      split_ifs <;> rfl
    | rightOp =>
      show (cursorRight m).ed.selectAll = true
      rw [← hsel]
      unfold cursorRight
      dsimp only
      split_ifs <;> rfl
    | upOp =>
      show (cursorUp m).ed.selectAll = true
      rw [← hsel]
      unfold cursorUp
      dsimp only
      split_ifs <;> rfl
    | downOp =>
      show (cursorDown m).ed.selectAll = true
      rw [← hsel]
      unfold cursorDown
      dsimp only
      split_ifs <;> rfl
    | selectAllOp => rfl
    | undoOp =>
      show (popUndo m).ed.selectAll = true
      rw [← hsel]
      unfold popUndo
      dsimp only
      split_ifs <;> rfl
  · unfold handleBackspace withSel
    dsimp only
    split_ifs <;> rfl
  · unfold handleEnter withSel
    dsimp only
    split_ifs <;> rfl
  · unfold popUndo withSel
    dsimp only
    split_ifs <;> rfl

/-- Closed instantiation of select_all_frame: with the flag set on the
fresh machine, Backspace keeps the flag and is flag-independent. -/
theorem select_all_frame_witness :
    (applyOp .backspaceOp (handleSelectAll initMachine)).ed.selectAll = true :=
  (select_all_frame .backspaceOp (handleSelectAll initMachine) false rfl
    (fun h => EditOp.noConfusion h) (fun _ h => EditOp.noConfusion h)).1

-- TRACE LEMMAS for the poll dispatch

/-- The actions the Fn layer can produce for a word character. -/
def fnAct (a : KeyAct) : Prop :=
  a = .arrowUp ∨ a = .arrowLeft ∨ a = .arrowDown ∨ a = .arrowRight ∨
  a = .escapeKey ∨ ∃ n, a = .fkey n

/-- The actions the Ctrl branch can produce for a word character. -/
def ctrlAct (a : KeyAct) : Prop :=
  a = .save ∨ a = .undo ∨ a = .selectAllKey ∨ a = .copy ∨ a = .paste

theorem fnCharAction_snd (c : Char) (m : Machine) :
    ∀ a ∈ (fnCharAction c m).2.toList, fnAct a := by
  unfold fnCharAction
  split_ifs <;> simp [fnAct]

theorem fnWordLoop_mem :
    ∀ (cs : List Char) (m : Machine) (as : List KeyAct) (a : KeyAct),
      a ∈ (fnWordLoop cs (m, as)).2 → a ∈ as ∨ fnAct a := by
  intro cs
  induction cs with
  | nil => intro m as a ha; exact Or.inl ha
  | cons c cs ih =>
    intro m as a ha
    unfold fnWordLoop at ha
    dsimp only at ha
    rcases ih _ _ _ ha with h | h
    · rcases List.mem_append.mp h with h' | h'
      · exact Or.inl h'
      · exact Or.inr (fnCharAction_snd c m a h')
    · exact Or.inr h

theorem fnWordLoop_count_fd :
    ∀ (cs : List Char) (m : Machine) (as : List KeyAct),
      ((fnWordLoop cs (m, as)).2).count KeyAct.forwardDelete =
        as.count KeyAct.forwardDelete := by
  intro cs
  induction cs with
  | nil => intro m as; rfl
  | cons c cs ih =>
    intro m as
    unfold fnWordLoop
    dsimp only
    rw [ih, List.count_append]
    have h0 : ((fnCharAction c m).2.toList).count KeyAct.forwardDelete = 0 := by
      unfold fnCharAction
      split_ifs <;> simp [List.count]
    omega

theorem ctrlCharAction_snd (c : Char) (m : Machine) :
    ∀ a ∈ (ctrlCharAction c m).2.toList, ctrlAct a := by
  unfold ctrlCharAction
  dsimp only
  split_ifs <;> simp [ctrlAct]

theorem ctrlWordLoop_mem :
    ∀ (cs : List Char) (m : Machine) (as : List KeyAct) (a : KeyAct),
      a ∈ (ctrlWordLoop cs (m, as)).2 → a ∈ as ∨ ctrlAct a := by
  intro cs
  induction cs with
  | nil => intro m as a ha; exact Or.inl ha
  | cons c cs ih =>
    intro m as a ha
    unfold ctrlWordLoop at ha
    dsimp only at ha
    rcases ih _ _ _ ha with h | h
    · rcases List.mem_append.mp h with h' | h'
      · exact Or.inl h'
      · exact Or.inr (ctrlCharAction_snd c m a h')
    · exact Or.inr h

theorem selInsertStep_snd (c : Char) (m : Machine) :
    ∀ a ∈ (selInsertStep c m).2, a = KeyAct.clearAll ∨ ∃ d, a = KeyAct.insert d := by
  unfold selInsertStep
  split_ifs <;> simp

theorem selWordLoop_mem :
    ∀ (cs : List Char) (m : Machine) (as : List KeyAct) (a : KeyAct),
      a ∈ (selWordLoop cs (m, as)).2 →
        a ∈ as ∨ a = KeyAct.clearAll ∨ ∃ d, a = KeyAct.insert d := by
  intro cs
  induction cs with
  | nil => intro m as a ha; exact Or.inl ha
  | cons c cs ih =>
    intro m as a ha
    unfold selWordLoop at ha
    dsimp only at ha
    rcases ih _ _ _ ha with h | h
    · rcases List.mem_append.mp h with h' | h'
      · exact Or.inl h'
      · exact Or.inr (selInsertStep_snd c m a h')
    · exact Or.inr h

theorem processPressed_fn_trace (s : KeysState) (m : Machine) (hf : s.fn = true) :
    ∃ m2 : Machine, (processPressed s m).2 =
      (if comboCond s m then [KeyAct.capsToggle] else []) ++
      (fnWordLoop s.word (m2, [])).2 ++
      (if s.del = true then [KeyAct.forwardDelete] else []) := by
  by_cases hcb : comboCond s m = true
  · refine ⟨{ m with
        ed := { m.ed with
          capsLock := !m.ed.capsLock
          notification := if !m.ed.capsLock then "CAPS ON" else "CAPS OFF" }
        prevFn := s.fn
        prevShift := s.shift }, ?_⟩
    unfold processPressed
    rw [if_pos hcb, if_pos hcb]
    dsimp only
    rw [if_pos hf]
    by_cases hd : s.del = true
    · rw [if_pos hd, if_pos hd]
    · rw [if_neg hd, if_neg hd]
  · refine ⟨{ m with prevFn := s.fn, prevShift := s.shift }, ?_⟩
    unfold processPressed
    rw [if_neg hcb, if_neg hcb]
    dsimp only
    rw [if_pos hf]
    by_cases hd : s.del = true
    · rw [if_pos hd, if_pos hd]
    · rw [if_neg hd, if_neg hd]

theorem processPressed_ctrl_trace (s : KeysState) (m : Machine)
    (hf : s.fn = false) (hc : s.ctrl = true) :
    ∃ m2 : Machine, (processPressed s m).2 =
      (if comboCond s m then [KeyAct.capsToggle] else []) ++
      (ctrlWordLoop s.word (m2, [])).2 := by
  by_cases hcb : comboCond s m = true
  · refine ⟨{ m with
        ed := { m.ed with
          capsLock := !m.ed.capsLock
          notification := if !m.ed.capsLock then "CAPS ON" else "CAPS OFF" }
        prevFn := s.fn
        prevShift := s.shift }, ?_⟩
    unfold processPressed
    rw [if_pos hcb, if_pos hcb]
    dsimp only
    rw [if_neg (by simp [hf]), if_pos hc]
  · refine ⟨{ m with prevFn := s.fn, prevShift := s.shift }, ?_⟩
    unfold processPressed
    rw [if_neg hcb, if_neg hcb]
    dsimp only
    rw [if_neg (by simp [hf]), if_pos hc]

theorem processPressed_caps_mem (s : KeysState) (m : Machine) :
    KeyAct.capsToggle ∈ (processPressed s m).2 ↔ comboCond s m = true := by
  constructor
  · intro hmem
    by_contra hcc
    revert hmem
    unfold processPressed
    dsimp only
    rw [if_neg hcc]
    by_cases hfn : s.fn = true
    · rw [if_pos hfn]
      dsimp only
      intro hmem
      rcases List.mem_append.mp hmem with h | h
      · rcases List.mem_append.mp h with h1 | h1
        · simp at h1
        · rcases fnWordLoop_mem _ _ _ _ h1 with h2 | h2
          · simp at h2
          · simp [fnAct] at h2
      · revert h
        split_ifs <;> simp
    · rw [if_neg hfn]
      by_cases hct : s.ctrl = true
      · rw [if_pos hct]
        dsimp only
        intro hmem
        rcases List.mem_append.mp hmem with h | h
        · simp at h
        · rcases ctrlWordLoop_mem _ _ _ _ h with h2 | h2
          · simp at h2
          · simp [ctrlAct] at h2
      · rw [if_neg hct]
        dsimp only
        intro hmem
        rcases List.mem_append.mp hmem with h | h
        · rcases List.mem_append.mp h with h | h1
          · rcases List.mem_append.mp h with h | h1
            · rcases List.mem_append.mp h with h | h1
              · rcases List.mem_append.mp h with h | h1
                · rcases List.mem_append.mp h with h1 | h1
                  · simp at h1
                  · revert h1
                    simp only [apply_ite Prod.snd]
                    split_ifs <;> simp
                · revert h1
                  simp only [apply_ite Prod.snd]
                  split_ifs <;> simp
              · revert h1
                simp only [apply_ite Prod.snd]
                split_ifs <;> simp
            · revert h1
              simp only [apply_ite Prod.snd]
              split_ifs <;> simp
          · revert h1
            simp only [apply_ite Prod.snd]
            split_ifs <;> simp
        · rcases selWordLoop_mem _ _ _ _ h with h2 | h2
          · simp at h2
          · rcases h2 with h2 | ⟨d, h2⟩ <;> simp at h2
  · intro hcc
    unfold processPressed
    dsimp only
    rw [if_pos hcc]
    by_cases hfn : s.fn = true
    · rw [if_pos hfn]
      dsimp only
      simp
    · rw [if_neg hfn]
      by_cases hct : s.ctrl = true
      · rw [if_pos hct]
        dsimp only
        simp
      · rw [if_neg hct]
        dsimp only
        simp

-- CLAIM C2

/-- C2: the caps-lock combo edge fires on a pressed poll exactly when
(current fn AND shift) holds and NOT (previous fn AND shift); a poll with
the active set empty forcibly resets the previous-frame context to
(false, false); consequently a release poll followed by a press of
Fn+Shift fires exactly once per cycle, over arbitrarily many cycles. -/
theorem combo_edge_spec (s : KeysState) (m : Machine) (n : Nat) :
    (KeyAct.capsToggle ∈ (processPressed s m).2 ↔ comboCond s m = true) ∧
    ((pollStep m none).prevFn = false ∧ (pollStep m none).prevShift = false) ∧
    (s.fn = true → s.shift = true →
      countFires m (List.flatten (List.replicate n [none, some s])) = n) := by
  refine ⟨processPressed_caps_mem s m, ⟨rfl, rfl⟩, fun hf hs => ?_⟩
  induction n generalizing m with
  | zero => rfl
  | succ n ih =>
    rw [List.replicate_succ, List.flatten_cons]
    show countFires m (none :: some s :: List.flatten (List.replicate n [none, some s])) = n + 1
    have hc : comboCond s (pollStep m none) = true := by
      unfold comboCond pollStep
      rw [hf, hs]
      rfl
    unfold countFires
    dsimp only
    unfold countFires
    dsimp only
    rw [if_pos hc, ih]
    omega

/-- A Fn+Shift chord with no other keys. -/
def fnShiftKeys : KeysState :=
  { word := [], fn := true, shift := true, ctrl := false, alt := false
    opt := false, del := false, enter := false, tab := false }

/-- Closed instantiation of combo_edge_spec: two release-then-press
Fn+Shift cycles from the fresh machine fire exactly twice. -/
theorem combo_edge_spec_witness :
    countFires initMachine (List.flatten (List.replicate 2 [none, some fnShiftKeys])) = 2 :=
  (combo_edge_spec fnShiftKeys initMachine 2).2.2 rfl rfl

-- CLAIM C3

/-- C3: on any pressed poll with fn set, the poll produces no text
insertion, no Backspace, no Ctrl-shortcut action (save, undo, select-all,
copy, paste) and no select-all buffer clearing; if additionally the del
flag is set, the poll performs exactly one ForwardDelete, and if del is
clear it performs none. -/
theorem fn_layer_suppression (s : KeysState) (m : Machine) (hf : s.fn = true) :
    (∀ c, KeyAct.insert c ∉ (processPressed s m).2) ∧
    KeyAct.backspace ∉ (processPressed s m).2 ∧
    KeyAct.save ∉ (processPressed s m).2 ∧
    KeyAct.undo ∉ (processPressed s m).2 ∧
    KeyAct.selectAllKey ∉ (processPressed s m).2 ∧
    KeyAct.copy ∉ (processPressed s m).2 ∧
    KeyAct.paste ∉ (processPressed s m).2 ∧
    KeyAct.clearAll ∉ (processPressed s m).2 ∧
    KeyAct.enterKey ∉ (processPressed s m).2 ∧
    KeyAct.tabKey ∉ (processPressed s m).2 ∧
    (s.del = true → ((processPressed s m).2).count KeyAct.forwardDelete = 1) ∧
    (s.del = false → ((processPressed s m).2).count KeyAct.forwardDelete = 0) := by
  obtain ⟨m2, htr⟩ := processPressed_fn_trace s m hf
  have hmem : ∀ a, a ∈ (processPressed s m).2 →
      a = KeyAct.capsToggle ∨ fnAct a ∨ a = KeyAct.forwardDelete := by
    intro a ha
    rw [htr] at ha
    rcases List.mem_append.mp ha with h | h
    · rcases List.mem_append.mp h with h1 | h1
      · left
        revert h1
        split_ifs <;> simp
      · rcases fnWordLoop_mem _ _ _ _ h1 with h2 | h2
        · simp at h2
        · exact Or.inr (Or.inl h2)
    · right; right
      revert h
      split_ifs <;> simp
  have hcnt : ((processPressed s m).2).count KeyAct.forwardDelete =
      (if s.del = true then 1 else 0) := by
    rw [htr, List.count_append, List.count_append, fnWordLoop_count_fd]
    have h1 : ((if comboCond s m then [KeyAct.capsToggle] else []) : List KeyAct).count
        KeyAct.forwardDelete = 0 := by
      split_ifs <;> rfl
    have h2 : ((if s.del = true then [KeyAct.forwardDelete] else []) : List KeyAct).count
        KeyAct.forwardDelete = (if s.del = true then 1 else 0) := by
      split_ifs <;> rfl
    rw [h1, h2]
    split_ifs <;> rfl
  refine ⟨?_, ?_, ?_, ?_, ?_, ?_, ?_, ?_, ?_, ?_, ?_, ?_⟩
  · intro c hin
    rcases hmem _ hin with h | h | h <;> simp [fnAct] at h
  · intro hin
    rcases hmem _ hin with h | h | h <;> simp [fnAct] at h
  · intro hin
    rcases hmem _ hin with h | h | h <;> simp [fnAct] at h
  · intro hin
    rcases hmem _ hin with h | h | h <;> simp [fnAct] at h
  · intro hin
    rcases hmem _ hin with h | h | h <;> simp [fnAct] at h
  · intro hin
    rcases hmem _ hin with h | h | h <;> simp [fnAct] at h
  · intro hin
    rcases hmem _ hin with h | h | h <;> simp [fnAct] at h
  · intro hin
    rcases hmem _ hin with h | h | h <;> simp [fnAct] at h
  · intro hin
    rcases hmem _ hin with h | h | h <;> simp [fnAct] at h
  · intro hin
    rcases hmem _ hin with h | h | h <;> simp [fnAct] at h
  · intro hd
    rw [hcnt, if_pos hd]
  · intro hd
    rw [hcnt, if_neg (by simp [hd])]

/-- A Fn+Backspace chord with no other keys. -/
def fnDelKeys : KeysState :=
  { word := [], fn := true, shift := false, ctrl := false, alt := false
    opt := false, del := true, enter := false, tab := false }

/-- Closed instantiation of fn_layer_suppression: Fn+Backspace on the fresh
machine performs exactly one ForwardDelete and no Backspace. -/
theorem fn_layer_suppression_witness :
    ((processPressed fnDelKeys initMachine).2).count KeyAct.forwardDelete = 1 ∧
    KeyAct.backspace ∉ (processPressed fnDelKeys initMachine).2 := by
  have h := fn_layer_suppression fnDelKeys initMachine rfl
  exact ⟨h.2.2.2.2.2.2.2.2.2.2.1 rfl, h.2.1⟩

-- INVARIANT (CLAIM C7)

/-- The cursor/bounds invariant of the editor buffer. -/
def EdInv (e : EditorState) : Prop :=
  1 ≤ e.lineCount ∧ e.lineCount ≤ 100 ∧ e.cursorLine < e.lineCount ∧
  e.cursorCol ≤ (e.lines.getD e.cursorLine []).length ∧ e.lines.length = 100

/-- A live ring slot: valid, and its snapshot satisfies the same bounds. -/
def EntryOK (u : UndoEntry) : Prop :=
  u.valid = true ∧ 1 ≤ u.lineCount ∧ u.lineCount ≤ 100 ∧
  u.cursorLine < u.lineCount ∧ u.cursorCol ≤ (u.lines.getD u.cursorLine []).length

/-- The whole-machine invariant: buffer bounds, ring-geometry bounds, all
slot arrays of full width, and every live slot (the undoCount slots behind
the head) a valid in-bounds snapshot. -/
def MachInv (m : Machine) : Prop :=
  EdInv m.ed ∧
  m.undoStack.length = 20 ∧
  m.undoHead < 20 ∧
  m.undoCount ≤ 20 ∧
  (∀ j, j < 20 → ((m.undoStack.getD j default).lines).length = 100) ∧
  (∀ k, k < m.undoCount → EntryOK (m.undoStack.getD ((m.undoHead + 19 - k) % 20) default))

theorem MachInv_of_parts (m' base : Machine)
    (hst : m'.undoStack = base.undoStack)
    (hhd : m'.undoHead = base.undoHead)
    (hct : m'.undoCount = base.undoCount)
    (hbase : MachInv base) (he : EdInv m'.ed) : MachInv m' := by
  obtain ⟨_, h2, h3, h4, h5, h6⟩ := hbase
  exact ⟨he, by rw [hst]; exact h2, by rw [hhd]; exact h3, by rw [hct]; exact h4,
    by rw [hst]; exact h5, by rw [hst, hhd, hct]; exact h6⟩

theorem pushUndo_undoHead (m : Machine) : (pushUndo m).undoHead = (m.undoHead + 1) % 20 := rfl

theorem pushUndo_undoCount (m : Machine) :
    (pushUndo m).undoCount = if m.undoCount < 20 then m.undoCount + 1 else m.undoCount := rfl

theorem pushUndo_undoStack_length (m : Machine) :
    (pushUndo m).undoStack.length = m.undoStack.length := by
  unfold pushUndo
  dsimp only
  rw [List.length_set]

/-- The slot value pushUndo writes at the head. -/
def pushEntry (m : Machine) : UndoEntry :=
  { lines := copyLines (m.undoStack.getD m.undoHead default).lines m.ed.lines m.ed.lineCount
    lineCount := m.ed.lineCount
    cursorLine := m.ed.cursorLine
    cursorCol := m.ed.cursorCol
    valid := true }

theorem pushUndo_getD_head (m : Machine) (hh : m.undoHead < m.undoStack.length) :
    (pushUndo m).undoStack.getD m.undoHead default = pushEntry m := by
  unfold pushUndo pushEntry
  dsimp only
  exact getD_set_self _ _ _ _ hh

theorem pushUndo_getD_ne (m : Machine) (j : Nat) (hne : m.undoHead ≠ j) :
    (pushUndo m).undoStack.getD j default = m.undoStack.getD j default := by
  unfold pushUndo
  dsimp only
  exact getD_set_of_ne _ _ _ _ _ hne

theorem MachInv_pushUndo (m : Machine) (h : MachInv m) : MachInv (pushUndo m) := by
  obtain ⟨⟨he1, he2, he3, he4, he5⟩, h2, h3, h4, h5, h6⟩ := h
  refine ⟨by rw [pushUndo_ed]; exact ⟨he1, he2, he3, he4, he5⟩,
    by rw [pushUndo_undoStack_length]; exact h2,
    by rw [pushUndo_undoHead]; omega,
    by rw [pushUndo_undoCount]; split_ifs <;> omega,
    ?_, ?_⟩
  · intro j hj
    by_cases hjh : m.undoHead = j
    · subst hjh
      rw [pushUndo_getD_head m (by omega)]
      unfold pushEntry
      dsimp only
      rw [copyLines_length]
      exact h5 _ (by omega)
    · rw [pushUndo_getD_ne m j hjh]
      exact h5 j hj
  · intro k hk
    rw [pushUndo_undoCount] at hk
    rw [pushUndo_undoHead]
    by_cases hk0 : k = 0
    · subst hk0
      have hidx : ((m.undoHead + 1) % 20 + 19 - 0) % 20 = m.undoHead := by omega
      rw [hidx, pushUndo_getD_head m (by omega)]
      unfold pushEntry
      refine ⟨rfl, he1, he2, he3, ?_⟩
      dsimp only
      rw [copyLines_getD_of_lt _ _ _ _ he3 (by rw [h5 m.undoHead h3]; omega)]
      exact he4
    · have hk19 : k ≤ 19 := by split_ifs at hk <;> omega
      have hidx : ((m.undoHead + 1) % 20 + 19 - k) % 20 =
          (m.undoHead + 19 - (k - 1)) % 20 := by omega
      have hne : m.undoHead ≠ (m.undoHead + 19 - (k - 1)) % 20 := by omega
      rw [hidx, pushUndo_getD_ne m _ hne]
      refine h6 (k - 1) ?_
      split_ifs at hk <;> omega

theorem popUndo_fields (m : Machine) (h0 : m.undoCount ≠ 0)
    (hv : (topEntry m).valid = true) :
    (popUndo m).undoHead = (m.undoHead + (UNDO_STACK_SIZE - 1)) % UNDO_STACK_SIZE ∧
    (popUndo m).undoCount = m.undoCount - 1 ∧
    (popUndo m).undoStack = m.undoStack ∧
    (popUndo m).ed.lineCount = (topEntry m).lineCount ∧
    (popUndo m).ed.cursorLine = (topEntry m).cursorLine ∧
    (popUndo m).ed.cursorCol = (topEntry m).cursorCol ∧
    (popUndo m).ed.lines = copyLines m.ed.lines (topEntry m).lines (topEntry m).lineCount := by
  have hvne : ¬((topEntry m).valid = false) := by
    rw [hv]
    simp
  unfold popUndo
  rw [if_neg h0]
  unfold topEntry at hvne ⊢
  dsimp only
  rw [if_neg hvne]
  exact ⟨rfl, rfl, rfl, rfl, rfl, rfl, rfl⟩

theorem MachInv_popUndo (m : Machine) (h : MachInv m) : MachInv (popUndo m) := by
  obtain ⟨⟨he1, he2, he3, he4, he5⟩, h2, h3, h4, h5, h6⟩ := h
  by_cases h0 : m.undoCount = 0
  · unfold popUndo
    rw [if_pos h0]
    exact ⟨⟨he1, he2, he3, he4, he5⟩, h2, h3, h4, h5, h6⟩
  · have hU : UNDO_STACK_SIZE = 20 := rfl
    have htop : EntryOK (topEntry m) := by
      have h190 : (m.undoHead + 19 - 0) % 20 =
          (m.undoHead + (UNDO_STACK_SIZE - 1)) % UNDO_STACK_SIZE := by
        simp only [hU]
        omega
      have htop0 := h6 0 (by omega)
      rw [h190] at htop0
      exact htop0
    obtain ⟨hu1, hu2, hu3, hu4, hu5⟩ := htop
    obtain ⟨f1, f2, f3, f4, f5, f6, f7⟩ := popUndo_fields m h0 hu1
    refine ⟨⟨?_, ?_, ?_, ?_, ?_⟩, ?_, ?_, ?_, ?_, ?_⟩
    · rw [f4]
      exact hu2
    · rw [f4]
      exact hu3
    · rw [f5, f4]
      exact hu4
    · rw [f6, f5, f7]
      rw [copyLines_getD_of_lt _ _ _ _ hu4 (by omega)]
      exact hu5
    · rw [f7, copyLines_length]
      exact he5
    · rw [f3]
      exact h2
    · rw [f1, hU]
      omega
    · rw [f2]
      omega
    · intro j hj
      rw [f3]
      exact h5 j hj
    · intro k hk
      rw [f2] at hk
      rw [f1, f3, hU]
      have hidx : ((m.undoHead + (20 - 1)) % 20 + 19 - k) % 20 =
          (m.undoHead + 19 - (k + 1)) % 20 := by omega
      rw [hidx]
      exact h6 (k + 1) (by omega)

theorem MachInv_insertChar (c : Char) (m : Machine) (h : MachInv m) :
    MachInv (insertChar c m) := by
  obtain ⟨he1, he2, he3, he4, he5⟩ := h.1
  refine MachInv_of_parts _ (pushUndo m) rfl rfl rfl (MachInv_pushUndo m h) ?_
  unfold insertChar
  dsimp only
  simp only [pushUndo_ed]
  unfold EdInv
  dsimp only
  refine ⟨he1, he2, he3, ?_, by rw [List.length_set]; exact he5⟩
  rw [getD_set_self _ _ _ _ (by omega)]
  split_ifs with hlc
  · rw [List.length_append, List.length_singleton]
    omega
  · rw [List.length_append, List.length_append, List.length_take, List.length_drop,
      List.length_singleton]
    omega

theorem MachInv_backspace (m : Machine) (h : MachInv m) :
    MachInv (handleBackspace m) := by
  obtain ⟨he1, he2, he3, he4, he5⟩ := h.1
  by_cases hc : 0 < m.ed.cursorCol
  · refine MachInv_of_parts _ (pushUndo m) ?_ ?_ ?_ (MachInv_pushUndo m h) ?_
    · unfold handleBackspace
      rw [if_pos hc]
    · unfold handleBackspace
      rw [if_pos hc]
    · unfold handleBackspace
      rw [if_pos hc]
    · unfold handleBackspace
      rw [if_pos hc]
      dsimp only
      simp only [pushUndo_ed]
      unfold EdInv
      dsimp only
      refine ⟨he1, he2, he3, ?_, by rw [List.length_set]; exact he5⟩
      rw [getD_set_self _ _ _ _ (by omega),
        List.length_append, List.length_take, List.length_drop]
      omega
  · by_cases hl : 0 < m.ed.cursorLine
    · refine MachInv_of_parts _ (pushUndo m) ?_ ?_ ?_ (MachInv_pushUndo m h) ?_
      · unfold handleBackspace
        rw [if_neg hc, if_pos hl]
      · unfold handleBackspace
        rw [if_neg hc, if_pos hl]
      · unfold handleBackspace
        rw [if_neg hc, if_pos hl]
      · unfold handleBackspace
        rw [if_neg hc, if_pos hl]
        dsimp only
        simp only [pushUndo_ed]
        unfold EdInv
        dsimp only
        refine ⟨by omega, by omega, by omega, ?_, ?_⟩
        · rw [getD_set_of_ne _ _ _ _ _ (by omega)]
          unfold shiftUp
          rw [shiftUpAux_getD_of_lt _ _ _ _ (by omega),
            getD_set_self _ _ _ _ (by omega), List.length_append]
          omega
        · rw [List.length_set]
          unfold shiftUp
          rw [shiftUpAux_length, List.length_set]
          exact he5
    · unfold handleBackspace
      rw [if_neg hc, if_neg hl]
      exact h

theorem MachInv_forwardDelete (m : Machine) (h : MachInv m) :
    MachInv (handleForwardDelete m) := by
  obtain ⟨he1, he2, he3, he4, he5⟩ := h.1
  by_cases hc : m.ed.cursorCol < (m.ed.lines.getD m.ed.cursorLine []).length
  · refine MachInv_of_parts _ (pushUndo m) ?_ ?_ ?_ (MachInv_pushUndo m h) ?_
    · unfold handleForwardDelete
      rw [if_pos hc]
    · unfold handleForwardDelete
      rw [if_pos hc]
    · unfold handleForwardDelete
      rw [if_pos hc]
    · unfold handleForwardDelete
      rw [if_pos hc]
      dsimp only
      simp only [pushUndo_ed]
      unfold EdInv
      dsimp only
      refine ⟨he1, he2, he3, ?_, by rw [List.length_set]; exact he5⟩
      rw [getD_set_self _ _ _ _ (by omega),
        List.length_append, List.length_take, List.length_drop]
      omega
  · by_cases hl : m.ed.cursorLine < m.ed.lineCount - 1
    · refine MachInv_of_parts _ (pushUndo m) ?_ ?_ ?_ (MachInv_pushUndo m h) ?_
      · unfold handleForwardDelete
        rw [if_neg hc, if_pos hl]
      · unfold handleForwardDelete
        rw [if_neg hc, if_pos hl]
      · unfold handleForwardDelete
        rw [if_neg hc, if_pos hl]
      · unfold handleForwardDelete
        rw [if_neg hc, if_pos hl]
        dsimp only
        simp only [pushUndo_ed]
        unfold EdInv
        dsimp only
        refine ⟨by omega, by omega, by omega, ?_, ?_⟩
        · rw [getD_set_of_ne _ _ _ _ _ (by omega)]
          unfold shiftUp
          rw [shiftUpAux_getD_of_lt _ _ _ _ (by omega),
            getD_set_self _ _ _ _ (by omega), List.length_append]
          omega
        · rw [List.length_set]
          unfold shiftUp
          rw [shiftUpAux_length, List.length_set]
          exact he5
    · unfold handleForwardDelete
      rw [if_neg hc, if_neg hl]
      exact h

theorem MachInv_enter (m : Machine) (h : MachInv m) :
    MachInv (handleEnter m) := by
  obtain ⟨he1, he2, he3, he4, he5⟩ := h.1
  by_cases hcap : MAX_LINES ≤ m.ed.lineCount
  · unfold handleEnter
    rw [if_pos hcap]
    exact h
  · have hcap2 : m.ed.lineCount < 100 := by
      unfold MAX_LINES at hcap
      omega
    refine MachInv_of_parts _ (pushUndo m) ?_ ?_ ?_ (MachInv_pushUndo m h) ?_
    · unfold handleEnter
      rw [if_neg hcap]
    · unfold handleEnter
      rw [if_neg hcap]
    · unfold handleEnter
      rw [if_neg hcap]
    · unfold handleEnter
      rw [if_neg hcap]
      dsimp only
      simp only [pushUndo_ed]
      unfold EdInv
      dsimp only
      refine ⟨by omega, by omega, by omega, Nat.zero_le _, ?_⟩
      rw [List.length_set]
      unfold shiftDown
      rw [shiftDownAux_length, List.length_set]
      exact he5

theorem MachInv_tab (m : Machine) (h : MachInv m) : MachInv (handleTab m) := by
  show MachInv (insertChar ' ' (insertChar ' ' (insertChar ' ' (insertChar ' ' m))))
  exact MachInv_insertChar _ _ (MachInv_insertChar _ _
    (MachInv_insertChar _ _ (MachInv_insertChar _ _ h)))

theorem MachInv_cursorLeft (m : Machine) (h : MachInv m) : MachInv (cursorLeft m) := by
  obtain ⟨he1, he2, he3, he4, he5⟩ := h.1
  refine MachInv_of_parts _ m ?_ ?_ ?_ h ?_
  · unfold cursorLeft
    split_ifs <;> rfl
  · unfold cursorLeft
    split_ifs <;> rfl
  · unfold cursorLeft
    split_ifs <;> rfl
  · unfold cursorLeft EdInv
    dsimp only
    split_ifs with h1 h2
    · exact ⟨he1, he2, he3, by dsimp only; omega, he5⟩
    · exact ⟨he1, he2, by dsimp only; omega, Nat.le_refl _, he5⟩
    · exact ⟨he1, he2, he3, he4, he5⟩

theorem MachInv_cursorRight (m : Machine) (h : MachInv m) : MachInv (cursorRight m) := by
  obtain ⟨he1, he2, he3, he4, he5⟩ := h.1
  refine MachInv_of_parts _ m ?_ ?_ ?_ h ?_
  · unfold cursorRight
    split_ifs <;> rfl
  · unfold cursorRight
    split_ifs <;> rfl
  · unfold cursorRight
    split_ifs <;> rfl
  · unfold cursorRight EdInv
    dsimp only
    split_ifs with h1 h2
    · exact ⟨he1, he2, he3, by dsimp only; omega, he5⟩
    · exact ⟨he1, he2, by dsimp only; omega, by dsimp only; omega, he5⟩
    · exact ⟨he1, he2, he3, he4, he5⟩

theorem MachInv_cursorUp (m : Machine) (h : MachInv m) : MachInv (cursorUp m) := by
  obtain ⟨he1, he2, he3, he4, he5⟩ := h.1
  refine MachInv_of_parts _ m ?_ ?_ ?_ h ?_
  · unfold cursorUp
    split_ifs <;> rfl
  · unfold cursorUp
    split_ifs <;> rfl
  · unfold cursorUp
    split_ifs <;> rfl
  · unfold cursorUp EdInv
    dsimp only
    split_ifs with h1 h2
    · exact ⟨he1, he2, by dsimp only; omega, by dsimp only; omega, he5⟩
    · exact ⟨he1, he2, by dsimp only; omega, by dsimp only; omega, he5⟩
    · exact ⟨he1, he2, he3, he4, he5⟩

theorem MachInv_cursorDown (m : Machine) (h : MachInv m) : MachInv (cursorDown m) := by
  obtain ⟨he1, he2, he3, he4, he5⟩ := h.1
  refine MachInv_of_parts _ m ?_ ?_ ?_ h ?_
  · unfold cursorDown
    split_ifs <;> rfl
  · unfold cursorDown
    split_ifs <;> rfl
  · unfold cursorDown
    split_ifs <;> rfl
  · unfold cursorDown EdInv
    dsimp only
    split_ifs with h1 h2
    · exact ⟨he1, he2, by dsimp only; omega, by dsimp only; omega, he5⟩
    · exact ⟨he1, he2, by dsimp only; omega, by dsimp only; omega, he5⟩
    · exact ⟨he1, he2, he3, he4, he5⟩

theorem MachInv_selectAll (m : Machine) (h : MachInv m) : MachInv (handleSelectAll m) := by
  obtain ⟨he1, he2, he3, he4, he5⟩ := h.1
  exact MachInv_of_parts _ m rfl rfl rfl h ⟨he1, he2, he3, he4, he5⟩

theorem MachInv_escape (m : Machine) (h : MachInv m) : MachInv (handleEscape m) := by
  obtain ⟨he1, he2, he3, he4, he5⟩ := h.1
  refine MachInv_of_parts _ m ?_ ?_ ?_ h ?_
  · unfold handleEscape
    split_ifs <;> rfl
  · unfold handleEscape
    split_ifs <;> rfl
  · unfold handleEscape
    split_ifs <;> rfl
  · unfold handleEscape
    split_ifs <;> exact ⟨he1, he2, he3, he4, he5⟩

-- CLAIM C7

/-- C7: every editor operation named in the contracts (InsertChar,
Backspace, ForwardDelete, Enter, Tab, the four cursor moves, SelectAll,
Escape, Undo) preserves the machine invariant: 1 <= lineCount <= 100,
cursorLine < lineCount, cursorCol <= length of the current line, full-width
line arrays, and a well-formed undo ring whose live slots are valid
in-bounds snapshots. -/
theorem invariant_preservation (op : EditOp) (m : Machine) (h : MachInv m) :
    MachInv (applyOp op m) := by
  cases op with
  | insertOp c => exact MachInv_insertChar c m h
  | backspaceOp => exact MachInv_backspace m h
  | forwardDeleteOp => exact MachInv_forwardDelete m h
  | enterOp => exact MachInv_enter m h
  | tabOp => exact MachInv_tab m h
  | leftOp => exact MachInv_cursorLeft m h
  | rightOp => exact MachInv_cursorRight m h
  | upOp => exact MachInv_cursorUp m h
  | downOp => exact MachInv_cursorDown m h
  | selectAllOp => exact MachInv_selectAll m h
  | escapeOp => exact MachInv_escape m h
  | undoOp => exact MachInv_popUndo m h

/-- Closed instantiation of invariant_preservation: the fresh machine
satisfies the invariant and Enter preserves it there. -/
theorem invariant_preservation_witness :
    MachInv initMachine ∧ MachInv (applyOp .enterOp initMachine) :=
  ⟨by unfold MachInv EdInv EntryOK; decide,
    invariant_preservation .enterOp initMachine (by unfold MachInv EdInv EntryOK; decide)⟩

-- CLAIM C1

/-- A buffer whose only used line is w: line 0 holds w, the other 99 cells are empty. -/
def lineBuf (w : Line) : List Line := w :: List.replicate 99 []

/-- The undo slot produced by pushing a one-line buffer w with the cursor at its end. -/
def snapEntry (w : Line) : UndoEntry :=
  { lines := lineBuf w, lineCount := 1, cursorLine := 0, cursorCol := w.length, valid := true }

/-- A zero-initialised undo slot, as the globals start out. -/
def initEntry : UndoEntry :=
  { lines := List.replicate MAX_LINES [], lineCount := 0, cursorLine := 0, cursorCol := 0
    valid := false }

/-- Normal form of the machines reached in the single-line typing scenario:
buffer w on line 0, cursor at its end, ring given by es, hd, cnt. -/
def scnMachine (w : Line) (es : List UndoEntry) (hd cnt : Nat) (ntf : String) : Machine :=
  { ed := { lines := lineBuf w, lineCount := 1, cursorLine := 0, cursorCol := w.length
            scrollY := 0, scrollX := 0, capsLock := false, selectAll := false
            showLineNumbers := false, notification := ntf }
    undoStack := es, undoHead := hd, undoCount := cnt
    prevFn := false, prevShift := false }

theorem initMachine_scn :
    initMachine = scnMachine [] (List.replicate 20 initEntry) 0 0 "Ready - type away!" := rfl

theorem snapEntry_lines (w : Line) : (snapEntry w).lines = lineBuf w := rfl

theorem initEntry_lines : initEntry.lines = lineBuf [] := rfl

theorem copyLines_lineBuf (x w : Line) : copyLines (lineBuf x) (lineBuf w) 1 = lineBuf w := rfl

theorem insertChar_scn (c : Char) (w : Line) (es : List UndoEntry)
    (hd cnt hd2 cnt2 : Nat) (ntf : String)
    (hh : (hd + 1) % 20 = hd2)
    (hc : (if cnt < 20 then cnt + 1 else cnt) = cnt2)
    (hcopy : copyLines ((es.getD hd default).lines) (lineBuf w) 1 = lineBuf w) :
    insertChar c (scnMachine w es hd cnt ntf) =
      scnMachine (w ++ [c]) (es.set hd (snapEntry w)) hd2 cnt2 ntf := by
  subst hh
  subst hc
  unfold insertChar pushUndo scnMachine snapEntry
  dsimp only
  have hg : (lineBuf w).getD 0 [] = w := rfl
  rw [hg, if_pos (Nat.le_refl _)]
  rw [hcopy]
  have hset : (lineBuf w).set 0 (w ++ [c]) = lineBuf (w ++ [c]) := rfl
  have hlen2 : List.length w + 1 = List.length (w ++ [c]) := by simp
  rw [hset, hlen2, show UNDO_STACK_SIZE = 20 from rfl]

theorem popUndo_scn (w x : Line) (es : List UndoEntry) (hd cnt hd2 cnt2 : Nat) (ntf : String)
    (hcnt : ¬(cnt = 0))
    (hh : (hd + (UNDO_STACK_SIZE - 1)) % UNDO_STACK_SIZE = hd2)
    (hc : cnt - 1 = cnt2)
    (hx : es.getD hd2 default = snapEntry x) :
    popUndo (scnMachine w es hd cnt ntf) =
      scnMachine x es hd2 cnt2 "Undo" := by
  subst hh
  subst hc
  unfold popUndo scnMachine
  dsimp only
  rw [if_neg hcnt, hx]
  rw [if_neg (by unfold snapEntry; simp)]
  unfold snapEntry
  dsimp only
  rfl

set_option maxRecDepth 10000 in
theorem scn21 (c1 c2 c3 c4 c5 c6 c7 c8 c9 c10 c11 c12 c13 c14 c15 c16 c17 c18 c19 c20 c21 : Char) :
    List.foldl (fun m c => insertChar c m) initMachine [c1, c2, c3, c4, c5, c6, c7, c8, c9, c10, c11, c12, c13, c14, c15, c16, c17, c18, c19, c20, c21] =
      scnMachine (((((((((((((((((((((([] : Line) ++ [c1]) ++ [c2]) ++ [c3]) ++ [c4]) ++ [c5]) ++ [c6]) ++ [c7]) ++ [c8]) ++ [c9]) ++ [c10]) ++ [c11]) ++ [c12]) ++ [c13]) ++ [c14]) ++ [c15]) ++ [c16]) ++ [c17]) ++ [c18]) ++ [c19]) ++ [c20]) ++ [c21]) (List.set (List.set (List.set (List.set (List.set (List.set (List.set (List.set (List.set (List.set (List.set (List.set (List.set (List.set (List.set (List.set (List.set (List.set (List.set (List.set (List.set (List.replicate 20 initEntry) 0 (snapEntry ([] : Line))) 1 (snapEntry (([] : Line) ++ [c1]))) 2 (snapEntry ((([] : Line) ++ [c1]) ++ [c2]))) 3 (snapEntry (((([] : Line) ++ [c1]) ++ [c2]) ++ [c3]))) 4 (snapEntry ((((([] : Line) ++ [c1]) ++ [c2]) ++ [c3]) ++ [c4]))) 5 (snapEntry (((((([] : Line) ++ [c1]) ++ [c2]) ++ [c3]) ++ [c4]) ++ [c5]))) 6 (snapEntry ((((((([] : Line) ++ [c1]) ++ [c2]) ++ [c3]) ++ [c4]) ++ [c5]) ++ [c6]))) 7 (snapEntry (((((((([] : Line) ++ [c1]) ++ [c2]) ++ [c3]) ++ [c4]) ++ [c5]) ++ [c6]) ++ [c7]))) 8 (snapEntry ((((((((([] : Line) ++ [c1]) ++ [c2]) ++ [c3]) ++ [c4]) ++ [c5]) ++ [c6]) ++ [c7]) ++ [c8]))) 9 (snapEntry (((((((((([] : Line) ++ [c1]) ++ [c2]) ++ [c3]) ++ [c4]) ++ [c5]) ++ [c6]) ++ [c7]) ++ [c8]) ++ [c9]))) 10 (snapEntry ((((((((((([] : Line) ++ [c1]) ++ [c2]) ++ [c3]) ++ [c4]) ++ [c5]) ++ [c6]) ++ [c7]) ++ [c8]) ++ [c9]) ++ [c10]))) 11 (snapEntry (((((((((((([] : Line) ++ [c1]) ++ [c2]) ++ [c3]) ++ [c4]) ++ [c5]) ++ [c6]) ++ [c7]) ++ [c8]) ++ [c9]) ++ [c10]) ++ [c11]))) 12 (snapEntry ((((((((((((([] : Line) ++ [c1]) ++ [c2]) ++ [c3]) ++ [c4]) ++ [c5]) ++ [c6]) ++ [c7]) ++ [c8]) ++ [c9]) ++ [c10]) ++ [c11]) ++ [c12]))) 13 (snapEntry (((((((((((((([] : Line) ++ [c1]) ++ [c2]) ++ [c3]) ++ [c4]) ++ [c5]) ++ [c6]) ++ [c7]) ++ [c8]) ++ [c9]) ++ [c10]) ++ [c11]) ++ [c12]) ++ [c13]))) 14 (snapEntry ((((((((((((((([] : Line) ++ [c1]) ++ [c2]) ++ [c3]) ++ [c4]) ++ [c5]) ++ [c6]) ++ [c7]) ++ [c8]) ++ [c9]) ++ [c10]) ++ [c11]) ++ [c12]) ++ [c13]) ++ [c14]))) 15 (snapEntry (((((((((((((((([] : Line) ++ [c1]) ++ [c2]) ++ [c3]) ++ [c4]) ++ [c5]) ++ [c6]) ++ [c7]) ++ [c8]) ++ [c9]) ++ [c10]) ++ [c11]) ++ [c12]) ++ [c13]) ++ [c14]) ++ [c15]))) 16 (snapEntry ((((((((((((((((([] : Line) ++ [c1]) ++ [c2]) ++ [c3]) ++ [c4]) ++ [c5]) ++ [c6]) ++ [c7]) ++ [c8]) ++ [c9]) ++ [c10]) ++ [c11]) ++ [c12]) ++ [c13]) ++ [c14]) ++ [c15]) ++ [c16]))) 17 (snapEntry (((((((((((((((((([] : Line) ++ [c1]) ++ [c2]) ++ [c3]) ++ [c4]) ++ [c5]) ++ [c6]) ++ [c7]) ++ [c8]) ++ [c9]) ++ [c10]) ++ [c11]) ++ [c12]) ++ [c13]) ++ [c14]) ++ [c15]) ++ [c16]) ++ [c17]))) 18 (snapEntry ((((((((((((((((((([] : Line) ++ [c1]) ++ [c2]) ++ [c3]) ++ [c4]) ++ [c5]) ++ [c6]) ++ [c7]) ++ [c8]) ++ [c9]) ++ [c10]) ++ [c11]) ++ [c12]) ++ [c13]) ++ [c14]) ++ [c15]) ++ [c16]) ++ [c17]) ++ [c18]))) 19 (snapEntry (((((((((((((((((((([] : Line) ++ [c1]) ++ [c2]) ++ [c3]) ++ [c4]) ++ [c5]) ++ [c6]) ++ [c7]) ++ [c8]) ++ [c9]) ++ [c10]) ++ [c11]) ++ [c12]) ++ [c13]) ++ [c14]) ++ [c15]) ++ [c16]) ++ [c17]) ++ [c18]) ++ [c19]))) 0 (snapEntry ((((((((((((((((((((([] : Line) ++ [c1]) ++ [c2]) ++ [c3]) ++ [c4]) ++ [c5]) ++ [c6]) ++ [c7]) ++ [c8]) ++ [c9]) ++ [c10]) ++ [c11]) ++ [c12]) ++ [c13]) ++ [c14]) ++ [c15]) ++ [c16]) ++ [c17]) ++ [c18]) ++ [c19]) ++ [c20]))) 1 20 "Ready - type away!" := by
  simp only [List.foldl_cons, List.foldl_nil]
  rw [initMachine_scn]
  rw [insertChar_scn _ _ _ _ _ 1 1]
  rw [insertChar_scn _ _ _ _ _ 2 2]
  rw [insertChar_scn _ _ _ _ _ 3 3]
  rw [insertChar_scn _ _ _ _ _ 4 4]
  rw [insertChar_scn _ _ _ _ _ 5 5]
  rw [insertChar_scn _ _ _ _ _ 6 6]
  rw [insertChar_scn _ _ _ _ _ 7 7]
  rw [insertChar_scn _ _ _ _ _ 8 8]
  rw [insertChar_scn _ _ _ _ _ 9 9]
  rw [insertChar_scn _ _ _ _ _ 10 10]
  rw [insertChar_scn _ _ _ _ _ 11 11]
  rw [insertChar_scn _ _ _ _ _ 12 12]
  rw [insertChar_scn _ _ _ _ _ 13 13]
  rw [insertChar_scn _ _ _ _ _ 14 14]
  rw [insertChar_scn _ _ _ _ _ 15 15]
  rw [insertChar_scn _ _ _ _ _ 16 16]
  rw [insertChar_scn _ _ _ _ _ 17 17]
  rw [insertChar_scn _ _ _ _ _ 18 18]
  rw [insertChar_scn _ _ _ _ _ 19 19]
  rw [insertChar_scn _ _ _ _ _ 0 20]
  rw [insertChar_scn _ _ _ _ _ 1 20]
  all_goals try decide
  all_goals simp [getD_set_of_ne, getD_set_self, snapEntry_lines, initEntry_lines,
    copyLines_lineBuf, List.length_set, List.length_replicate]

set_option maxRecDepth 10000 in
theorem scn_final (c1 c2 c3 c4 c5 c6 c7 c8 c9 c10 c11 c12 c13 c14 c15 c16 c17 c18 c19 c20 c21 : Char) :
    (popUndo (popUndo (popUndo (popUndo (popUndo (popUndo (popUndo (popUndo (popUndo (popUndo (popUndo (popUndo (popUndo (popUndo (popUndo (popUndo (popUndo (popUndo (popUndo (popUndo (List.foldl (fun m c => insertChar c m) initMachine [c1, c2, c3, c4, c5, c6, c7, c8, c9, c10, c11, c12, c13, c14, c15, c16, c17, c18, c19, c20, c21]))))))))))))))))))))) =
      scnMachine (([] : Line) ++ [c1]) (List.set (List.set (List.set (List.set (List.set (List.set (List.set (List.set (List.set (List.set (List.set (List.set (List.set (List.set (List.set (List.set (List.set (List.set (List.set (List.set (List.set (List.replicate 20 initEntry) 0 (snapEntry ([] : Line))) 1 (snapEntry (([] : Line) ++ [c1]))) 2 (snapEntry ((([] : Line) ++ [c1]) ++ [c2]))) 3 (snapEntry (((([] : Line) ++ [c1]) ++ [c2]) ++ [c3]))) 4 (snapEntry ((((([] : Line) ++ [c1]) ++ [c2]) ++ [c3]) ++ [c4]))) 5 (snapEntry (((((([] : Line) ++ [c1]) ++ [c2]) ++ [c3]) ++ [c4]) ++ [c5]))) 6 (snapEntry ((((((([] : Line) ++ [c1]) ++ [c2]) ++ [c3]) ++ [c4]) ++ [c5]) ++ [c6]))) 7 (snapEntry (((((((([] : Line) ++ [c1]) ++ [c2]) ++ [c3]) ++ [c4]) ++ [c5]) ++ [c6]) ++ [c7]))) 8 (snapEntry ((((((((([] : Line) ++ [c1]) ++ [c2]) ++ [c3]) ++ [c4]) ++ [c5]) ++ [c6]) ++ [c7]) ++ [c8]))) 9 (snapEntry (((((((((([] : Line) ++ [c1]) ++ [c2]) ++ [c3]) ++ [c4]) ++ [c5]) ++ [c6]) ++ [c7]) ++ [c8]) ++ [c9]))) 10 (snapEntry ((((((((((([] : Line) ++ [c1]) ++ [c2]) ++ [c3]) ++ [c4]) ++ [c5]) ++ [c6]) ++ [c7]) ++ [c8]) ++ [c9]) ++ [c10]))) 11 (snapEntry (((((((((((([] : Line) ++ [c1]) ++ [c2]) ++ [c3]) ++ [c4]) ++ [c5]) ++ [c6]) ++ [c7]) ++ [c8]) ++ [c9]) ++ [c10]) ++ [c11]))) 12 (snapEntry ((((((((((((([] : Line) ++ [c1]) ++ [c2]) ++ [c3]) ++ [c4]) ++ [c5]) ++ [c6]) ++ [c7]) ++ [c8]) ++ [c9]) ++ [c10]) ++ [c11]) ++ [c12]))) 13 (snapEntry (((((((((((((([] : Line) ++ [c1]) ++ [c2]) ++ [c3]) ++ [c4]) ++ [c5]) ++ [c6]) ++ [c7]) ++ [c8]) ++ [c9]) ++ [c10]) ++ [c11]) ++ [c12]) ++ [c13]))) 14 (snapEntry ((((((((((((((([] : Line) ++ [c1]) ++ [c2]) ++ [c3]) ++ [c4]) ++ [c5]) ++ [c6]) ++ [c7]) ++ [c8]) ++ [c9]) ++ [c10]) ++ [c11]) ++ [c12]) ++ [c13]) ++ [c14]))) 15 (snapEntry (((((((((((((((([] : Line) ++ [c1]) ++ [c2]) ++ [c3]) ++ [c4]) ++ [c5]) ++ [c6]) ++ [c7]) ++ [c8]) ++ [c9]) ++ [c10]) ++ [c11]) ++ [c12]) ++ [c13]) ++ [c14]) ++ [c15]))) 16 (snapEntry ((((((((((((((((([] : Line) ++ [c1]) ++ [c2]) ++ [c3]) ++ [c4]) ++ [c5]) ++ [c6]) ++ [c7]) ++ [c8]) ++ [c9]) ++ [c10]) ++ [c11]) ++ [c12]) ++ [c13]) ++ [c14]) ++ [c15]) ++ [c16]))) 17 (snapEntry (((((((((((((((((([] : Line) ++ [c1]) ++ [c2]) ++ [c3]) ++ [c4]) ++ [c5]) ++ [c6]) ++ [c7]) ++ [c8]) ++ [c9]) ++ [c10]) ++ [c11]) ++ [c12]) ++ [c13]) ++ [c14]) ++ [c15]) ++ [c16]) ++ [c17]))) 18 (snapEntry ((((((((((((((((((([] : Line) ++ [c1]) ++ [c2]) ++ [c3]) ++ [c4]) ++ [c5]) ++ [c6]) ++ [c7]) ++ [c8]) ++ [c9]) ++ [c10]) ++ [c11]) ++ [c12]) ++ [c13]) ++ [c14]) ++ [c15]) ++ [c16]) ++ [c17]) ++ [c18]))) 19 (snapEntry (((((((((((((((((((([] : Line) ++ [c1]) ++ [c2]) ++ [c3]) ++ [c4]) ++ [c5]) ++ [c6]) ++ [c7]) ++ [c8]) ++ [c9]) ++ [c10]) ++ [c11]) ++ [c12]) ++ [c13]) ++ [c14]) ++ [c15]) ++ [c16]) ++ [c17]) ++ [c18]) ++ [c19]))) 0 (snapEntry ((((((((((((((((((((([] : Line) ++ [c1]) ++ [c2]) ++ [c3]) ++ [c4]) ++ [c5]) ++ [c6]) ++ [c7]) ++ [c8]) ++ [c9]) ++ [c10]) ++ [c11]) ++ [c12]) ++ [c13]) ++ [c14]) ++ [c15]) ++ [c16]) ++ [c17]) ++ [c18]) ++ [c19]) ++ [c20]))) 1 0 "Undo" := by
  rw [scn21]
  rw [popUndo_scn _ ((((((((((((((((((((([] : Line) ++ [c1]) ++ [c2]) ++ [c3]) ++ [c4]) ++ [c5]) ++ [c6]) ++ [c7]) ++ [c8]) ++ [c9]) ++ [c10]) ++ [c11]) ++ [c12]) ++ [c13]) ++ [c14]) ++ [c15]) ++ [c16]) ++ [c17]) ++ [c18]) ++ [c19]) ++ [c20]) _ _ _ 0 19]
  rw [popUndo_scn _ (((((((((((((((((((([] : Line) ++ [c1]) ++ [c2]) ++ [c3]) ++ [c4]) ++ [c5]) ++ [c6]) ++ [c7]) ++ [c8]) ++ [c9]) ++ [c10]) ++ [c11]) ++ [c12]) ++ [c13]) ++ [c14]) ++ [c15]) ++ [c16]) ++ [c17]) ++ [c18]) ++ [c19]) _ _ _ 19 18]
  rw [popUndo_scn _ ((((((((((((((((((([] : Line) ++ [c1]) ++ [c2]) ++ [c3]) ++ [c4]) ++ [c5]) ++ [c6]) ++ [c7]) ++ [c8]) ++ [c9]) ++ [c10]) ++ [c11]) ++ [c12]) ++ [c13]) ++ [c14]) ++ [c15]) ++ [c16]) ++ [c17]) ++ [c18]) _ _ _ 18 17]
  rw [popUndo_scn _ (((((((((((((((((([] : Line) ++ [c1]) ++ [c2]) ++ [c3]) ++ [c4]) ++ [c5]) ++ [c6]) ++ [c7]) ++ [c8]) ++ [c9]) ++ [c10]) ++ [c11]) ++ [c12]) ++ [c13]) ++ [c14]) ++ [c15]) ++ [c16]) ++ [c17]) _ _ _ 17 16]
  rw [popUndo_scn _ ((((((((((((((((([] : Line) ++ [c1]) ++ [c2]) ++ [c3]) ++ [c4]) ++ [c5]) ++ [c6]) ++ [c7]) ++ [c8]) ++ [c9]) ++ [c10]) ++ [c11]) ++ [c12]) ++ [c13]) ++ [c14]) ++ [c15]) ++ [c16]) _ _ _ 16 15]
  rw [popUndo_scn _ (((((((((((((((([] : Line) ++ [c1]) ++ [c2]) ++ [c3]) ++ [c4]) ++ [c5]) ++ [c6]) ++ [c7]) ++ [c8]) ++ [c9]) ++ [c10]) ++ [c11]) ++ [c12]) ++ [c13]) ++ [c14]) ++ [c15]) _ _ _ 15 14]
  rw [popUndo_scn _ ((((((((((((((([] : Line) ++ [c1]) ++ [c2]) ++ [c3]) ++ [c4]) ++ [c5]) ++ [c6]) ++ [c7]) ++ [c8]) ++ [c9]) ++ [c10]) ++ [c11]) ++ [c12]) ++ [c13]) ++ [c14]) _ _ _ 14 13]
  rw [popUndo_scn _ (((((((((((((([] : Line) ++ [c1]) ++ [c2]) ++ [c3]) ++ [c4]) ++ [c5]) ++ [c6]) ++ [c7]) ++ [c8]) ++ [c9]) ++ [c10]) ++ [c11]) ++ [c12]) ++ [c13]) _ _ _ 13 12]
  rw [popUndo_scn _ ((((((((((((([] : Line) ++ [c1]) ++ [c2]) ++ [c3]) ++ [c4]) ++ [c5]) ++ [c6]) ++ [c7]) ++ [c8]) ++ [c9]) ++ [c10]) ++ [c11]) ++ [c12]) _ _ _ 12 11]
  rw [popUndo_scn _ (((((((((((([] : Line) ++ [c1]) ++ [c2]) ++ [c3]) ++ [c4]) ++ [c5]) ++ [c6]) ++ [c7]) ++ [c8]) ++ [c9]) ++ [c10]) ++ [c11]) _ _ _ 11 10]
  rw [popUndo_scn _ ((((((((((([] : Line) ++ [c1]) ++ [c2]) ++ [c3]) ++ [c4]) ++ [c5]) ++ [c6]) ++ [c7]) ++ [c8]) ++ [c9]) ++ [c10]) _ _ _ 10 9]
  rw [popUndo_scn _ (((((((((([] : Line) ++ [c1]) ++ [c2]) ++ [c3]) ++ [c4]) ++ [c5]) ++ [c6]) ++ [c7]) ++ [c8]) ++ [c9]) _ _ _ 9 8]
  rw [popUndo_scn _ ((((((((([] : Line) ++ [c1]) ++ [c2]) ++ [c3]) ++ [c4]) ++ [c5]) ++ [c6]) ++ [c7]) ++ [c8]) _ _ _ 8 7]
  rw [popUndo_scn _ (((((((([] : Line) ++ [c1]) ++ [c2]) ++ [c3]) ++ [c4]) ++ [c5]) ++ [c6]) ++ [c7]) _ _ _ 7 6]
  rw [popUndo_scn _ ((((((([] : Line) ++ [c1]) ++ [c2]) ++ [c3]) ++ [c4]) ++ [c5]) ++ [c6]) _ _ _ 6 5]
  rw [popUndo_scn _ (((((([] : Line) ++ [c1]) ++ [c2]) ++ [c3]) ++ [c4]) ++ [c5]) _ _ _ 5 4]
  rw [popUndo_scn _ ((((([] : Line) ++ [c1]) ++ [c2]) ++ [c3]) ++ [c4]) _ _ _ 4 3]
  rw [popUndo_scn _ (((([] : Line) ++ [c1]) ++ [c2]) ++ [c3]) _ _ _ 3 2]
  rw [popUndo_scn _ ((([] : Line) ++ [c1]) ++ [c2]) _ _ _ 2 1]
  rw [popUndo_scn _ (([] : Line) ++ [c1]) _ _ _ 1 0]
  all_goals try decide
  all_goals simp [getD_set_of_ne, getD_set_self, snapEntry_lines, initEntry_lines,
    copyLines_lineBuf, List.length_set, List.length_replicate]

set_option maxRecDepth 10000 in
/-- C1: from a fresh buffer, after 21 consecutive InsertChar operations,
20 Undos restore the buffer (lines, lineCount, cursor) to its state right
after the 1st insertion, the snapshot preceding insertion 1 having been
overwritten by ring wraparound; a 21st Undo leaves the buffer unchanged
and reports "Nothing to undo". -/
theorem undo_ring_wraparound (c1 c2 c3 c4 c5 c6 c7 c8 c9 c10 c11 c12 c13 c14 c15 c16 c17 c18 c19 c20 c21 : Char) :
    (popUndo (popUndo (popUndo (popUndo (popUndo (popUndo (popUndo (popUndo (popUndo (popUndo (popUndo (popUndo (popUndo (popUndo (popUndo (popUndo (popUndo (popUndo (popUndo (popUndo (List.foldl (fun m c => insertChar c m) initMachine [c1, c2, c3, c4, c5, c6, c7, c8, c9, c10, c11, c12, c13, c14, c15, c16, c17, c18, c19, c20, c21]))))))))))))))))))))).ed.lines = (insertChar c1 initMachine).ed.lines ∧
    (popUndo (popUndo (popUndo (popUndo (popUndo (popUndo (popUndo (popUndo (popUndo (popUndo (popUndo (popUndo (popUndo (popUndo (popUndo (popUndo (popUndo (popUndo (popUndo (popUndo (List.foldl (fun m c => insertChar c m) initMachine [c1, c2, c3, c4, c5, c6, c7, c8, c9, c10, c11, c12, c13, c14, c15, c16, c17, c18, c19, c20, c21]))))))))))))))))))))).ed.lineCount = (insertChar c1 initMachine).ed.lineCount ∧
    (popUndo (popUndo (popUndo (popUndo (popUndo (popUndo (popUndo (popUndo (popUndo (popUndo (popUndo (popUndo (popUndo (popUndo (popUndo (popUndo (popUndo (popUndo (popUndo (popUndo (List.foldl (fun m c => insertChar c m) initMachine [c1, c2, c3, c4, c5, c6, c7, c8, c9, c10, c11, c12, c13, c14, c15, c16, c17, c18, c19, c20, c21]))))))))))))))))))))).ed.cursorLine = (insertChar c1 initMachine).ed.cursorLine ∧
    (popUndo (popUndo (popUndo (popUndo (popUndo (popUndo (popUndo (popUndo (popUndo (popUndo (popUndo (popUndo (popUndo (popUndo (popUndo (popUndo (popUndo (popUndo (popUndo (popUndo (List.foldl (fun m c => insertChar c m) initMachine [c1, c2, c3, c4, c5, c6, c7, c8, c9, c10, c11, c12, c13, c14, c15, c16, c17, c18, c19, c20, c21]))))))))))))))))))))).ed.cursorCol = (insertChar c1 initMachine).ed.cursorCol ∧
    (popUndo (popUndo (popUndo (popUndo (popUndo (popUndo (popUndo (popUndo (popUndo (popUndo (popUndo (popUndo (popUndo (popUndo (popUndo (popUndo (popUndo (popUndo (popUndo (popUndo (popUndo (List.foldl (fun m c => insertChar c m) initMachine [c1, c2, c3, c4, c5, c6, c7, c8, c9, c10, c11, c12, c13, c14, c15, c16, c17, c18, c19, c20, c21])))))))))))))))))))))).ed.lines = (popUndo (popUndo (popUndo (popUndo (popUndo (popUndo (popUndo (popUndo (popUndo (popUndo (popUndo (popUndo (popUndo (popUndo (popUndo (popUndo (popUndo (popUndo (popUndo (popUndo (List.foldl (fun m c => insertChar c m) initMachine [c1, c2, c3, c4, c5, c6, c7, c8, c9, c10, c11, c12, c13, c14, c15, c16, c17, c18, c19, c20, c21]))))))))))))))))))))).ed.lines ∧
    (popUndo (popUndo (popUndo (popUndo (popUndo (popUndo (popUndo (popUndo (popUndo (popUndo (popUndo (popUndo (popUndo (popUndo (popUndo (popUndo (popUndo (popUndo (popUndo (popUndo (popUndo (List.foldl (fun m c => insertChar c m) initMachine [c1, c2, c3, c4, c5, c6, c7, c8, c9, c10, c11, c12, c13, c14, c15, c16, c17, c18, c19, c20, c21])))))))))))))))))))))).ed.lineCount = (popUndo (popUndo (popUndo (popUndo (popUndo (popUndo (popUndo (popUndo (popUndo (popUndo (popUndo (popUndo (popUndo (popUndo (popUndo (popUndo (popUndo (popUndo (popUndo (popUndo (List.foldl (fun m c => insertChar c m) initMachine [c1, c2, c3, c4, c5, c6, c7, c8, c9, c10, c11, c12, c13, c14, c15, c16, c17, c18, c19, c20, c21]))))))))))))))))))))).ed.lineCount ∧
    (popUndo (popUndo (popUndo (popUndo (popUndo (popUndo (popUndo (popUndo (popUndo (popUndo (popUndo (popUndo (popUndo (popUndo (popUndo (popUndo (popUndo (popUndo (popUndo (popUndo (popUndo (List.foldl (fun m c => insertChar c m) initMachine [c1, c2, c3, c4, c5, c6, c7, c8, c9, c10, c11, c12, c13, c14, c15, c16, c17, c18, c19, c20, c21])))))))))))))))))))))).ed.cursorLine = (popUndo (popUndo (popUndo (popUndo (popUndo (popUndo (popUndo (popUndo (popUndo (popUndo (popUndo (popUndo (popUndo (popUndo (popUndo (popUndo (popUndo (popUndo (popUndo (popUndo (List.foldl (fun m c => insertChar c m) initMachine [c1, c2, c3, c4, c5, c6, c7, c8, c9, c10, c11, c12, c13, c14, c15, c16, c17, c18, c19, c20, c21]))))))))))))))))))))).ed.cursorLine ∧
    (popUndo (popUndo (popUndo (popUndo (popUndo (popUndo (popUndo (popUndo (popUndo (popUndo (popUndo (popUndo (popUndo (popUndo (popUndo (popUndo (popUndo (popUndo (popUndo (popUndo (popUndo (List.foldl (fun m c => insertChar c m) initMachine [c1, c2, c3, c4, c5, c6, c7, c8, c9, c10, c11, c12, c13, c14, c15, c16, c17, c18, c19, c20, c21])))))))))))))))))))))).ed.cursorCol = (popUndo (popUndo (popUndo (popUndo (popUndo (popUndo (popUndo (popUndo (popUndo (popUndo (popUndo (popUndo (popUndo (popUndo (popUndo (popUndo (popUndo (popUndo (popUndo (popUndo (List.foldl (fun m c => insertChar c m) initMachine [c1, c2, c3, c4, c5, c6, c7, c8, c9, c10, c11, c12, c13, c14, c15, c16, c17, c18, c19, c20, c21]))))))))))))))))))))).ed.cursorCol ∧
    (popUndo (popUndo (popUndo (popUndo (popUndo (popUndo (popUndo (popUndo (popUndo (popUndo (popUndo (popUndo (popUndo (popUndo (popUndo (popUndo (popUndo (popUndo (popUndo (popUndo (popUndo (List.foldl (fun m c => insertChar c m) initMachine [c1, c2, c3, c4, c5, c6, c7, c8, c9, c10, c11, c12, c13, c14, c15, c16, c17, c18, c19, c20, c21])))))))))))))))))))))).ed.notification = "Nothing to undo" := by
  rw [scn_final]
  refine ⟨rfl, rfl, rfl, rfl, rfl, rfl, rfl, rfl, rfl⟩
